import Mathlib

/-!
# NXT I2C sensor definitions: multiplexer and servo controller callbacks

A shallow embedding of the callbacks of `nxt_i2c_sensor_defs.c`:
the mindsensors.com 8-channel servo controller operations and the
HiTechnic sensor multiplexer hooks, over an explicit model of the SMBus
transfers they issue.
-/

namespace NxtI2cSensorDefs

/-! ## Machine integers -/

/-- Conversion of a C `int` to `u8` (the `command` argument of an SMBus transfer). -/
def to_u8 (z : Int) : Nat := (z % 256).toNat

/-- Conversion of a C `int` to `u16` (the `value` argument of a word write). -/
def to_u16 (z : Int) : Nat := (z % 65536).toNat

/-- Conversion of a C `unsigned` (32 bit) to `int`. -/
def to_int (n : Nat) : Int :=
  if n % 2 ^ 32 < 2 ^ 31 then ((n % 2 ^ 32 : Nat) : Int) else ((n % 2 ^ 32 : Nat) : Int) - 2 ^ 32

/-- C division of two `unsigned` values; undefined (`none`) for a zero divisor. -/
def c_udiv (a b : Nat) : Option Nat :=
  if b = 0 then none else some (a / b)

/-- C division of two `int` values (truncating); undefined (`none`) for a zero
divisor and for the overflowing quotient `INT_MIN / -1`. -/
def c_sdiv (a b : Int) : Option Int :=
  if b = 0 then none
  else if a = -(2 ^ 31) ∧ b = -1 then none
  else some (Int.tdiv a b)

/-! ## The bus -/

/-- The SMBus transfers the callbacks issue on `client`, over a bus state `σ`.
Every transfer returns its `s32` result (negative: transport failure) and the
next bus state; a block read also returns the bytes it delivered. -/
structure i2c_client (σ : Type) where
  i2c_smbus_read_byte_data : σ → Nat → Int × σ
  i2c_smbus_read_word_data : σ → Nat → Int × σ
  i2c_smbus_write_word_data : σ → Nat → Nat → Int × σ
  i2c_smbus_read_i2c_block_data : σ → Nat → Nat → (Int × List Nat) × σ

/-- One transfer as seen on the wire. -/
inductive bus_transfer where
  | read_byte_data (command : Nat)
  | read_word_data (command : Nat)
  | write_word_data (command : Nat) (value : Nat)
  | read_i2c_block_data (command : Nat) (length : Nat)
  deriving DecidableEq, Repr

/-- Whether a transfer writes to the device. -/
def bus_transfer.is_write : bus_transfer → Bool
  | .write_word_data _ _ => true
  | _ => false

/-- The same bus, recording every transfer issued (oldest first). -/
def traced {σ : Type} (client : i2c_client σ) : i2c_client (σ × List bus_transfer) where
  i2c_smbus_read_byte_data := fun s command =>
    let r := client.i2c_smbus_read_byte_data s.1 command
    (r.1, (r.2, s.2 ++ [bus_transfer.read_byte_data command]))
  i2c_smbus_read_word_data := fun s command =>
    let r := client.i2c_smbus_read_word_data s.1 command
    (r.1, (r.2, s.2 ++ [bus_transfer.read_word_data command]))
  i2c_smbus_write_word_data := fun s command value =>
    let r := client.i2c_smbus_write_word_data s.1 command value
    (r.1, (r.2, s.2 ++ [bus_transfer.write_word_data command value]))
  i2c_smbus_read_i2c_block_data := fun s command length =>
    let r := client.i2c_smbus_read_i2c_block_data s.1 command length
    (r.1, (r.2, s.2 ++ [bus_transfer.read_i2c_block_data command length]))

/-- A register file addressed by word: a word read returns the last word
written at that address (16 bits are kept), and no transfer fails. -/
def word_file : i2c_client (Nat → Nat) where
  i2c_smbus_read_byte_data := fun regs command => (((regs command % 256 : Nat) : Int), regs)
  i2c_smbus_read_word_data := fun regs command => (((regs command % 65536 : Nat) : Int), regs)
  i2c_smbus_write_word_data := fun regs command value =>
    (0, fun a => if a = command then value % 65536 else regs a)
  i2c_smbus_read_i2c_block_data := fun regs command length =>
    (((length : Int), (List.range length).map (fun k => regs (command + k) % 256)), regs)

/-- A register file addressed by byte: a word transfer at `command` moves the
low byte at `command` and the high byte at `command + 1` (SMBus byte order),
and no transfer fails. -/
def byte_file : i2c_client (Nat → Nat) where
  i2c_smbus_read_byte_data := fun regs command => (((regs command % 256 : Nat) : Int), regs)
  i2c_smbus_read_word_data := fun regs command =>
    (((regs command % 256 + 256 * (regs (command + 1) % 256) : Nat) : Int), regs)
  i2c_smbus_write_word_data := fun regs command value =>
    (0, fun a => if a = command then value % 256
                 else if a = command + 1 then value / 256 % 256 else regs a)
  i2c_smbus_read_i2c_block_data := fun regs command length =>
    (((length : Int), (List.range length).map (fun k => regs (command + k) % 256)), regs)

/-- A bus that ignores addresses: a word read returns the last word written
anywhere (0 before the first write). -/
def latch : i2c_client Nat where
  i2c_smbus_read_byte_data := fun w _ => (((w % 256 : Nat) : Int), w)
  i2c_smbus_read_word_data := fun w _ => (((w % 65536 : Nat) : Int), w)
  i2c_smbus_write_word_data := fun _ _ value => (0, value % 65536)
  i2c_smbus_read_i2c_block_data := fun w _ length => (((length : Int), List.replicate length 0), w)

/-! ## mindsensors.com 8-channel servo motor controller -/

/-- `ms_8ch_servo_get_position`: word read at `0x42 + servo->id * 2`. -/
def ms_8ch_servo_get_position {σ : Type} (client : i2c_client σ) (s : σ) (id : Nat) : Int × σ :=
  client.i2c_smbus_read_word_data s (to_u8 (0x42 + (id : Int) * 2))

/-- `ms_8ch_servo_set_position`: word write of `value` at `0x42 + servo->id * 2`. -/
def ms_8ch_servo_set_position {σ : Type} (client : i2c_client σ) (s : σ) (id : Nat)
    (value : Int) : Int × σ :=
  client.i2c_smbus_write_word_data s (to_u8 (0x42 + (id : Int) * 2)) (to_u16 value)

/-- `ms_8ch_servo_get_rate`: word read at `0x52 + servo->id`; a negative result is
returned as is, 0 gives 0, anything else gives `24000 / ret`. The result is
`none` when the C division is undefined. -/
def ms_8ch_servo_get_rate {σ : Type} (client : i2c_client σ) (s : σ) (id : Nat) :
    Option Int × σ :=
  let r := client.i2c_smbus_read_word_data s (to_u8 (0x52 + (id : Int)))
  let ret := r.1
  if ret < 0 then (some ret, r.2)
  else if ret = 0 then (some 0, r.2)
  else (c_sdiv 24000 ret, r.2)

/-- The value of `scaled` in `ms_8ch_servo_set_rate` for the requested `value`. -/
def ms_8ch_servo_set_rate_scaled (value : Nat) : Option Int :=
  if value ≥ 24000 then some 1
  else if value < 94 then some 0
  else (c_udiv 24000 value).map to_int

/-- `ms_8ch_servo_set_rate`: word write of `scaled` at `0x52 + servo->id * 2`.
The result is `none` when the C division is undefined. -/
def ms_8ch_servo_set_rate {σ : Type} (client : i2c_client σ) (s : σ) (id : Nat)
    (value : Nat) : Option (Int × σ) :=
  (ms_8ch_servo_set_rate_scaled value).map (fun scaled =>
    client.i2c_smbus_write_word_data s (to_u8 (0x52 + (id : Int) * 2)) (to_u16 scaled))

/-- `strncpy(dst, src, size)` on a C string held as its characters. -/
def strncpy (src : List Char) (size : Nat) : List Char := src.take size

/-- `snprintf(dst, size, ...)` of the formatted `text`: at most `size - 1`
characters are kept. -/
def snprintf (size : Nat) (text : List Char) : List Char := text.take (size - 1)

/-- The fields of `struct servo_motor_device` that the probe callback fills in
with data; `ops` always holds the four functions above and `context` the
enclosing `ms_8ch_servo_data`. -/
structure servo_motor_device where
  name : List Char
  port_name : List Char
  deriving DecidableEq, Repr

/-- The `struct ms_8ch_servo_data` of one channel. -/
structure ms_8ch_servo_data where
  id : Nat
  servo : servo_motor_device
  deriving DecidableEq, Repr

/-- Modelled from the spec: the servo motor class of the platform,
`register_child(name, parent, descriptor) -> handle | error` and
`unregister_child(handle)`. A servo is known by the address of its
`servo_motor_device` (the array address and the index in it); `register_result`
gives the value the n-th registration call returns, 0 for success. -/
structure servo_motor_class where
  registered : List ((Nat × Nat) × ms_8ch_servo_data)
  register_calls : Nat
  register_result : Nat → Int
  unregistered : List (Nat × Nat)

/-- Modelled from the spec: `register_servo_motor(&servos[i].servo, dev)`. -/
def register_servo_motor (c : servo_motor_class) (ptr : Nat × Nat) (dev : ms_8ch_servo_data) :
    Int × servo_motor_class :=
  if c.register_result c.register_calls = 0 then
    (0, { c with
      registered := c.registered ++ [(ptr, dev)]
      register_calls := c.register_calls + 1 })
  else
    (c.register_result c.register_calls, { c with register_calls := c.register_calls + 1 })

/-- Modelled from the spec: `unregister_servo_motor(&servos[i].servo)`. -/
def unregister_servo_motor (c : servo_motor_class) (ptr : Nat × Nat) : servo_motor_class :=
  { c with
    registered := c.registered.filter (fun q => q.1 != ptr)
    unregistered := c.unregistered ++ [ptr] }

/-- What `ms_8ch_servo_probe_cb` touches: `data->info.callback_data`,
`data->poll_ms`, the allocations of servo arrays, the next fresh address and
the servo motor class. -/
structure servo_state where
  callback_data : Option Nat
  poll_ms : Nat
  heap : Nat → Option (List ms_8ch_servo_data)
  brk : Nat
  servos : servo_motor_class

/-- What the loop body of `ms_8ch_servo_probe_cb` stores in `servos[i]`;
`size` is `SERVO_MOTOR_NAME_SIZE`, `ms_name` is `data->ms.name` and
`ms_port_name` is `data->ms.port_name`. -/
def servo_init (size : Nat) (ms_name ms_port_name : List Char) (i : Nat) : ms_8ch_servo_data where
  id := i
  servo :=
    { name := strncpy ms_name size
      port_name := snprintf size (ms_port_name ++ ":sv".toList ++ (Nat.repr (i + 1)).toList) }

/-- The registration loop of `ms_8ch_servo_probe_cb`, with `n` iterations left
from index `i`; returns the values of `i` and `err` at the end of the loop. -/
def servo_probe_loop (size : Nat) (ms_name ms_port_name : List Char) (a : Nat) :
    Nat → Nat → Int → servo_state → Nat × Int × servo_state
  | 0, i, err, st => (i, err, st)
  | n + 1, i, _, st =>
    let st1 := { st with
      heap := fun b =>
        if b = a then
          (st.heap a).map (fun (arr : List ms_8ch_servo_data) =>
            arr.set i (servo_init size ms_name ms_port_name i))
        else st.heap b }
    let r := register_servo_motor st1.servos (a, i) (servo_init size ms_name ms_port_name i)
    let st2 := { st1 with servos := r.2 }
    if r.1 ≠ 0 then (i, r.1, st2)
    else servo_probe_loop size ms_name ms_port_name a n (i + 1) r.1 st2

/-- The rollback loop `for (i--; i >= 0; i--) unregister_servo_motor(&servos[i].servo)`. -/
def servo_unregister_down (a : Nat) : Nat → servo_state → servo_state
  | 0, st => st
  | i + 1, st =>
    servo_unregister_down a i { st with servos := unregister_servo_motor st.servos (a, i) }

/-- `ms_8ch_servo_probe_cb`. The allocation is taken to succeed, and `err`,
which the loop always assigns, starts at 0. -/
def ms_8ch_servo_probe_cb (size : Nat) (ms_name ms_port_name : List Char) (st : servo_state) :
    servo_state :=
  let a := st.brk
  let st0 := { st with
    heap := fun b =>
      if b = a then some (List.replicate 8 ⟨0, ⟨[], []⟩⟩) else st.heap b
    brk := st.brk + 1 }
  let r := servo_probe_loop size ms_name ms_port_name a 8 0 0 st0
  if r.2.1 < 0 then
    let st1 := servo_unregister_down a r.1 r.2.2
    { st1 with heap := fun b => if b = a then none else st1.heap b }
  else { r.2.2 with callback_data := some a, poll_ms := 1000 }

/-- A servo state with nothing allocated and nothing registered, whose servo
class fails the registration calls listed in `failing` with `-ENOMEM`. -/
def fresh_servo_state (failing : List Nat) : servo_state where
  callback_data := none
  poll_ms := 0
  heap := fun _ => none
  brk := 0
  servos :=
    { registered := []
      register_calls := 0
      register_result := fun n => if n ∈ failing then -12 else 0
      unregistered := [] }

/-! ## HiTechnic NXT Sensor Multiplexer -/

/-- Linux `EPERM`. -/
def EPERM : Int := 1

/-- Linux `EBUSY`. -/
def EBUSY : Int := 16

/-- The constants of `ht_smux.h` that the mode-switch hook uses; the header is
not part of this file, so every statement about the hook holds for all values. -/
structure ht_smux_h where
  HT_SMUX_COMMAND_REG : Nat
  HT_SMUX_STATUS_REG : Nat
  HT_SMUX_COMMAND_DETECT : Nat
  HT_SMUX_STATUS_HALT : Nat

/-- The values the `HT_NXT_SMUX` entry of `nxt_i2c_sensor_defs` documents: mode
value 1 is Detect, status bit 2 is Halted, the command register is `0x20` and
the status byte follows it. -/
def ht_smux_documented : ht_smux_h where
  HT_SMUX_COMMAND_REG := 0x20
  HT_SMUX_STATUS_REG := 0x21
  HT_SMUX_COMMAND_DETECT := 1
  HT_SMUX_STATUS_HALT := 4

/-- `ht_sensor_mux_set_mode_pre_cb`. The status byte is only tested with `&`
once it is known to be non-negative, so the test is taken on its `Nat` value. -/
def ht_sensor_mux_set_mode_pre_cb {σ : Type} (h : ht_smux_h) (client : i2c_client σ)
    (s : σ) (mode : Nat) : Int × σ :=
  let r1 := client.i2c_smbus_read_byte_data s h.HT_SMUX_STATUS_REG
  if r1.1 < 0 then (r1.1, r1.2)
  else if mode = h.HT_SMUX_COMMAND_DETECT ∧ r1.1.toNat &&& h.HT_SMUX_STATUS_HALT = 0 then
    (-EPERM, r1.2)
  else
    let r2 := client.i2c_smbus_read_byte_data r1.2 h.HT_SMUX_COMMAND_REG
    if r2.1 < 0 then (r2.1, r2.2)
    else if r2.1 = (h.HT_SMUX_COMMAND_DETECT : Int) then (-EBUSY, r2.2)
    else (0, r2.2)

/-- Modelled from the spec: `NUM_HT_SMUX_CH` of `ht_smux.h`, the number of
multiplexer channels ("allocate exactly `N` (4) channel Sub-Devices"). -/
def NUM_HT_SMUX_CH : Nat := 4

/-- A `struct legoev3_port *` as the callbacks hold it: `NULL` (zeroed memory),
an `ERR_PTR` carrying an error code, or a registered port identified by its
handle. -/
inductive port_ptr where
  | null
  | err (e : Int)
  | port (handle : Nat)
  deriving DecidableEq, Repr

/-- `IS_ERR`. -/
def IS_ERR : port_ptr → Bool
  | .err _ => true
  | _ => false

/-- A port known to the platform: what `legoev3_port_register` was given. -/
structure legoev3_port where
  handle : Nat
  name : String
  id : Nat
  channel : Nat
  deriving DecidableEq, Repr

/-- Modelled from the spec: the platform device framework,
`register_child(name, parent, descriptor) -> handle | error` and
`unregister_child(handle)`. It holds the ports now registered, counts the
registration calls, decides by `register_result` whether the n-th registration
call fails (and with which error), and records every unregistration call. -/
structure platform where
  registered : List legoev3_port
  register_calls : Nat
  register_result : Nat → Option Int
  unregistered : List port_ptr

/-- Modelled from the spec: `legoev3_port_register(name, id, ..., pdata, ...)`
with `pdata.channel = channel`; a success hands out a fresh handle. -/
def legoev3_port_register (p : platform) (name : String) (id : Nat) (channel : Nat) :
    port_ptr × platform :=
  match p.register_result p.register_calls with
  | some e => (port_ptr.err e, { p with register_calls := p.register_calls + 1 })
  | none =>
    (port_ptr.port p.register_calls,
      { p with
        registered := p.registered ++ [⟨p.register_calls, name, id, channel⟩]
        register_calls := p.register_calls + 1 })

/-- Modelled from the spec: `legoev3_port_unregister(port)`; the port with that
handle is no longer registered. -/
def legoev3_port_unregister (p : platform) (ptr : port_ptr) : platform :=
  { p with
    registered :=
      match ptr with
      | port_ptr.port h => p.registered.filter (fun q => q.handle != h)
      | _ => p.registered
    unregistered := p.unregistered ++ [ptr] }

/-- The `struct ht_smux_input_port_data` of one channel; a callback is known by
its identity. -/
structure ht_smux_input_port_data where
  port : port_ptr
  cb : Option Nat
  deriving DecidableEq, Repr

/-- What the multiplexer callbacks share: `data->info.callback_data` (`none` is
`NULL`, otherwise the address of the channel array), the allocations that
address can point to (`none`: not allocated, or freed), the next fresh
address, and the platform. -/
structure mux_state where
  callback_data : Option Nat
  heap : Nat → Option (List ht_smux_input_port_data)
  brk : Nat
  ports : platform

/-- `kzalloc` of the channel array: zeroed entries at a fresh address.
Allocation is taken to succeed. -/
def kzalloc_ports (st : mux_state) : Nat × mux_state :=
  (st.brk,
    { st with
      heap := fun a =>
        if a = st.brk then some (List.replicate NUM_HT_SMUX_CH ⟨port_ptr.null, none⟩)
        else st.heap a
      brk := st.brk + 1 })

/-- `kfree(ports)`. -/
def kfree_ports (heap : Nat → Option (List ht_smux_input_port_data)) (a : Nat) :
    Nat → Option (List ht_smux_input_port_data) :=
  fun b => if b = a then none else heap b

/-- The load `ports[i].port`. -/
def load_port (heap : Nat → Option (List ht_smux_input_port_data)) (a i : Nat) : port_ptr :=
  match heap a with
  | some arr => (arr.getD i ⟨port_ptr.null, none⟩).port
  | none => port_ptr.null

/-- The store `ports[i].port = r`. -/
def store_port (heap : Nat → Option (List ht_smux_input_port_data)) (a i : Nat)
    (r : port_ptr) : Nat → Option (List ht_smux_input_port_data) :=
  fun b =>
    if b = a then (heap a).map (fun arr => arr.modify (fun e => { e with port := r }) i)
    else heap b

/-- The rollback loop `for (i--; i >= 0; i--) legoev3_port_unregister(ports[i].port)`,
entered with the index `i` of the failed registration. -/
def unregister_down (a : Nat) : Nat → mux_state → mux_state
  | 0, st => st
  | i + 1, st =>
    unregister_down a i
      { st with ports := legoev3_port_unregister st.ports (load_port st.heap a i) }

/-- The teardown loop `for (i = 0; i < NUM_HT_SMUX_CH; i++)
legoev3_port_unregister(ports[i].port)`, with `n` iterations left from index `i`. -/
def unregister_up (a : Nat) : Nat → Nat → mux_state → mux_state
  | 0, _, st => st
  | n + 1, i, st =>
    unregister_up a n (i + 1)
      { st with ports := legoev3_port_unregister st.ports (load_port st.heap a i) }

/-- The registration loop of `ht_sensor_mux_set_mode_post_cb`, with `n` iterations
left from index `i`; `name` is the port name and `a` the address of `ports`. -/
def register_loop (name : String) (a : Nat) : Nat → Nat → mux_state → mux_state
  | 0, _, st => st
  | n + 1, i, st =>
    let st1 := { st with callback_data := some a }
    let r := legoev3_port_register st1.ports name (i + 1) i
    let st2 := { st1 with ports := r.2, heap := store_port st1.heap a i r.1 }
    if IS_ERR (load_port st2.heap a i) then
      let st3 := unregister_down a i st2
      { st3 with heap := kfree_ports st3.heap a }
    else register_loop name a n (i + 1) st2

/-- `ht_sensor_mux_set_mode_post_cb`; `in_port_name` is
`dev_name(&data->in_port->dev)`. -/
def ht_sensor_mux_set_mode_post_cb (in_port_name : String) (st : mux_state) (mode : Nat) :
    mux_state :=
  if mode = 0 ∧ st.callback_data = none then
    let al := kzalloc_ports st
    register_loop (in_port_name ++ ":mux") al.1 NUM_HT_SMUX_CH 0 al.2
  else
    match st.callback_data with
    | some a =>
      let st1 := unregister_up a NUM_HT_SMUX_CH 0 st
      { st1 with callback_data := none, heap := kfree_ports st1.heap a }
    | none => st

/-- `ht_sensor_mux_remove_cb`. -/
def ht_sensor_mux_remove_cb (st : mux_state) : mux_state :=
  match st.callback_data with
  | some a =>
    let st1 := unregister_up a NUM_HT_SMUX_CH 0 st
    { st1 with callback_data := none, heap := kfree_ports st1.heap a }
  | none => st

/-- The load `ports[i].cb`; `none` is a `NULL` callback. -/
def load_cb (heap : Nat → Option (List ht_smux_input_port_data)) (a i : Nat) : Option Nat :=
  match heap a with
  | some arr => (arr.getD i ⟨port_ptr.null, none⟩).cb
  | none => none

/-- `ht_sensor_mux_register_poll_cb`: the store `ports[channel].cb = cb`. The
result is `none` when the store does not land in an allocated channel array
(`ports` is `NULL` or freed, or `channel` is outside the array), which the
function does not check. -/
def ht_sensor_mux_register_poll_cb (st : mux_state) (channel : Nat) (cb : Option Nat) :
    Option mux_state :=
  match st.callback_data with
  | none => none
  | some a =>
    match st.heap a with
    | none => none
    | some arr =>
      if channel < arr.length then
        some { st with
          heap := fun b =>
            if b = a then some (arr.modify (fun e => { e with cb := cb }) channel)
            else st.heap b }
      else none

/-- The constants of `ht_smux.h` that the poll callback uses in addition; the
header is not part of this file, so they are parameters. -/
structure ht_smux_poll_h extends ht_smux_h where
  HT_SMUX_CH1_CONFIG_REG : Nat
  HT_SMUX_CH2_CONFIG_REG : Nat
  HT_SMUX_CH3_CONFIG_REG : Nat
  HT_SMUX_CH4_CONFIG_REG : Nat
  HT_SMUX_CONFIG_I2C : Nat
  HT_SMUX_CH1_I2C_DATA_REG : Nat
  HT_SMUX_CH3_I2C_DATA_REG : Nat

/-- A register layout for concrete evaluation: the documented command and
status registers, one configuration byte per channel inside the first 32-byte
block, and the I2C data buffers after it. -/
def ht_smux_layout : ht_smux_poll_h where
  HT_SMUX_COMMAND_REG := 0x20
  HT_SMUX_STATUS_REG := 0x21
  HT_SMUX_COMMAND_DETECT := 1
  HT_SMUX_STATUS_HALT := 4
  HT_SMUX_CH1_CONFIG_REG := 0x22
  HT_SMUX_CH2_CONFIG_REG := 0x27
  HT_SMUX_CH3_CONFIG_REG := 0x2C
  HT_SMUX_CH4_CONFIG_REG := 0x31
  HT_SMUX_CONFIG_I2C := 1
  HT_SMUX_CH1_I2C_DATA_REG := 0x40
  HT_SMUX_CH3_I2C_DATA_REG := 0x60

/-- The call `i2c_smbus_read_i2c_block_data(client, command, length, raw_data + off)`
with its result ignored: a successful transfer copies the bytes it delivered (at
most `length`) to the buffer from offset `off` on; a failed one leaves the
buffer as it was. The buffer is the memory from `raw_data` on, by offset. -/
def read_block_into {σ : Type} (client : i2c_client σ) (s : σ) (command length : Nat)
    (raw_data : Nat → Nat) (off : Nat) : (Nat → Nat) × σ :=
  let r := client.i2c_smbus_read_i2c_block_data s command length
  if r.1.1 < 0 then (raw_data, r.2)
  else
    (fun k =>
      if off ≤ k ∧ k < off + min length r.1.2.length then r.1.2.getD (k - off) 0
      else raw_data k, r.2)

/-- The block reads of `ht_sensor_mux_poll_cb` (the statements before
`if (ports)`); the configuration bytes are tested in the buffer as it is after
the reads before them. -/
def ht_sensor_mux_poll_reads {σ : Type} (h : ht_smux_poll_h) (client : i2c_client σ)
    (s : σ) (raw_data : Nat → Nat) : (Nat → Nat) × σ :=
  let r1 := read_block_into client s h.HT_SMUX_COMMAND_REG 32 raw_data 0
  let r2 :=
    if r1.1 (h.HT_SMUX_CH1_CONFIG_REG - h.HT_SMUX_COMMAND_REG) &&& h.HT_SMUX_CONFIG_I2C ≠ 0 ∨
        r1.1 (h.HT_SMUX_CH2_CONFIG_REG - h.HT_SMUX_COMMAND_REG) &&& h.HT_SMUX_CONFIG_I2C ≠ 0 then
      read_block_into client r1.2 h.HT_SMUX_CH1_I2C_DATA_REG 32 r1.1 32
    else r1
  if r2.1 (h.HT_SMUX_CH3_CONFIG_REG - h.HT_SMUX_COMMAND_REG) &&& h.HT_SMUX_CONFIG_I2C ≠ 0 ∨
      r2.1 (h.HT_SMUX_CH4_CONFIG_REG - h.HT_SMUX_COMMAND_REG) &&& h.HT_SMUX_CONFIG_I2C ≠ 0 then
    read_block_into client r2.2 h.HT_SMUX_CH3_I2C_DATA_REG 32 r2.1 64
  else r2

/-- The loop `for (i = 0; i < NUM_HT_SMUX_CH; i++) if (ports[i].cb && ports[i].port)
ports[i].cb(ports[i].port)`, with `n` iterations left from index `i`. What a
callback does is the parameter `invoke`: its effect on the state `s`. -/
def fan_out {σ : Type} (invoke : Nat → port_ptr → σ → σ)
    (heap : Nat → Option (List ht_smux_input_port_data)) (a : Nat) : Nat → Nat → σ → σ
  | 0, _, s => s
  | n + 1, i, s =>
    match load_cb heap a i with
    | some cb =>
      if load_port heap a i ≠ port_ptr.null then
        fan_out invoke heap a n (i + 1) (invoke cb (load_port heap a i) s)
      else fan_out invoke heap a n (i + 1) s
    | none => fan_out invoke heap a n (i + 1) s

/-- `ht_sensor_mux_poll_cb`; `raw_data` is `data->ms.mode_info[mode].raw_data` of
the current mode. Returns the buffer and the state after the tick. -/
def ht_sensor_mux_poll_cb {σ : Type} (h : ht_smux_poll_h) (client : i2c_client σ)
    (invoke : Nat → port_ptr → σ → σ) (s : σ) (st : mux_state) (raw_data : Nat → Nat) :
    (Nat → Nat) × σ :=
  let r := ht_sensor_mux_poll_reads h client s raw_data
  match st.callback_data with
  | some a => (r.1, fan_out invoke st.heap a NUM_HT_SMUX_CH 0 r.2)
  | none => r

/-- Whether, in the block `bytes` read from the command register on, the
configuration byte of register `reg_a` or that of register `reg_b` has the I2C
flag. -/
def config_has_i2c (h : ht_smux_poll_h) (bytes : List Nat) (reg_a reg_b : Nat) : Bool :=
  decide (bytes.getD (reg_a - h.HT_SMUX_COMMAND_REG) 0 &&& h.HT_SMUX_CONFIG_I2C ≠ 0 ∨
    bytes.getD (reg_b - h.HT_SMUX_COMMAND_REG) 0 &&& h.HT_SMUX_CONFIG_I2C ≠ 0)

/-- A byte-addressed register file whose block reads at register `bad` fail
with `-EIO`; every other transfer is that of `byte_file`. -/
def flaky_file (bad : Nat) : i2c_client (Nat → Nat) where
  i2c_smbus_read_byte_data := byte_file.i2c_smbus_read_byte_data
  i2c_smbus_read_word_data := byte_file.i2c_smbus_read_word_data
  i2c_smbus_write_word_data := byte_file.i2c_smbus_write_word_data
  i2c_smbus_read_i2c_block_data := fun regs command length =>
    if command = bad then ((-5, []), regs)
    else byte_file.i2c_smbus_read_i2c_block_data regs command length

/-- A callback that only records its invocation, for use with `traced` buses:
the callback identity and its argument are appended to a separate list. -/
def record_call {σ : Type} (cb : Nat) (port : port_ptr) (s : σ × List (Nat × port_ptr)) :
    σ × List (Nat × port_ptr) :=
  (s.1, s.2 ++ [(cb, port)])

/-- The same bus over a state that carries a list of recorded callback
invocations along, untouched by the transfers. -/
def with_calls {σ : Type} (client : i2c_client σ) : i2c_client (σ × List (Nat × port_ptr)) where
  i2c_smbus_read_byte_data := fun s command =>
    let r := client.i2c_smbus_read_byte_data s.1 command
    (r.1, (r.2, s.2))
  i2c_smbus_read_word_data := fun s command =>
    let r := client.i2c_smbus_read_word_data s.1 command
    (r.1, (r.2, s.2))
  i2c_smbus_write_word_data := fun s command value =>
    let r := client.i2c_smbus_write_word_data s.1 command value
    (r.1, (r.2, s.2))
  i2c_smbus_read_i2c_block_data := fun s command length =>
    let r := client.i2c_smbus_read_i2c_block_data s.1 command length
    (r.1, (r.2, s.2))

/-- A state with nothing allocated and nothing registered, whose platform fails
the registration calls listed in `failing` with `-ENOMEM`. -/
def fresh_state (failing : List Nat) : mux_state where
  callback_data := none
  heap := fun _ => none
  brk := 0
  ports :=
    { registered := []
      register_calls := 0
      register_result := fun n => if n ∈ failing then some (-12) else none
      unregistered := [] }

/-- The state reached from `fresh_state []` by a successful activation followed
by the registration of callback 7 on channel 0. -/
def polled_state : mux_state :=
  (ht_sensor_mux_register_poll_cb
    (ht_sensor_mux_set_mode_post_cb "in1" (fresh_state []) 0) 0 (some 7)).getD (fresh_state [])

/-! ## Sensor definitions table -/

/-- The values of `enum msensor_data_type` that the table uses. -/
inductive msensor_data_type where
  | MSENSOR_DATA_U8
  | MSENSOR_DATA_S8
  | MSENSOR_DATA_U16
  | MSENSOR_DATA_S16
  | MSENSOR_DATA_S16_BE
  | MSENSOR_DATA_S32
  deriving DecidableEq, Repr

/-- The fields of `struct msensor_mode_info` that the table initialises; `none`
is a field the initialiser of a mode does not name. -/
structure msensor_mode_info where
  name : Option String := none
  raw_min : Option Int := none
  raw_max : Option Int := none
  pct_min : Option Int := none
  si_min : Option Int := none
  si_max : Option Int := none
  units : Option String := none
  data_sets : Option Nat := none
  data_type : Option msensor_data_type := none
  figures : Option Nat := none
  decimals : Option Nat := none
  deriving DecidableEq, Repr

/-- The fields of `struct nxt_i2c_sensor_mode_info`; `none` is a field the
initialiser of a mode does not name. -/
structure nxt_i2c_sensor_mode_info where
  read_data_reg : Option Nat := none
  set_mode_reg : Option Nat := none
  set_mode_data : Option Nat := none
  pin1_state : Option String := none
  deriving DecidableEq, Repr

/-- One entry of the table, `struct nxt_i2c_sensor_info`. The two mode arrays are
given by their initialisers in index order (every entry of the source lists its
modes as `[0]`, `[1]`, ... without a gap); `ops` lists the callbacks installed,
by field and function name. -/
structure nxt_i2c_sensor_info where
  name : String
  vendor_id : String
  product_id : String
  num_modes : Nat
  num_read_only_modes : Option Nat := none
  slow : Bool := false
  ops : List (String × String) := []
  ms_mode_info : List msensor_mode_info
  i2c_mode_info : List nxt_i2c_sensor_mode_info
  deriving DecidableEq, Repr

/-- The element `ms_mode_info[i]` of an entry: an index the initialiser does not
reach is an all-zero element, with no field named. -/
def nxt_i2c_sensor_info.mode (s : nxt_i2c_sensor_info) (i : Nat) : msensor_mode_info :=
  s.ms_mode_info.getD i {}

/-- The value of `raw_min`: 0 unless the initialiser names it. -/
def msensor_mode_info.raw_min_value (m : msensor_mode_info) : Int := m.raw_min.getD 0

/-- The value of `raw_max` with the documented default applied ("default 255"). -/
def msensor_mode_info.raw_max_value (m : msensor_mode_info) : Int := m.raw_max.getD 255

/-- The value of `data_sets` with the documented default applied ("default 1"). -/
def msensor_mode_info.data_sets_value (m : msensor_mode_info) : Nat := m.data_sets.getD 1

/-- The `[UNKNOWN_I2C_SENSOR]` entry of `nxt_i2c_sensor_defs`. -/
def UNKNOWN_I2C_SENSOR : nxt_i2c_sensor_info where
  name := "nxt-i2c"
  vendor_id := "UNKNOWN"
  product_id := "unknown"
  num_modes := 3
  ms_mode_info := [
    { name := some "I2C-U8" },
    { name := some "I2C-S8", data_type := some msensor_data_type.MSENSOR_DATA_S8 },
    { name := some "I2C-S16", data_type := some msensor_data_type.MSENSOR_DATA_S16 } ]
  i2c_mode_info := [
    { read_data_reg := some 0x42 },
    { read_data_reg := some 0x42 },
    { read_data_reg := some 0x42 } ]

/-- The `[LEGO_NXT_ULTRASONIC_SENSOR]` entry of `nxt_i2c_sensor_defs`. -/
def LEGO_NXT_ULTRASONIC_SENSOR : nxt_i2c_sensor_info where
  name := "lego-nxt-ultrasonic"
  vendor_id := "LEGO"
  product_id := "Sonar"
  num_modes := 5
  num_read_only_modes := some 2
  slow := true
  ms_mode_info := [
    { name := some "NXT-US-CM", units := some "cm" },
    { name := some "NXT-US-IN", units := some "in", si_max := some 1000, decimals := some 1 },
    { name := some "NXT-US-SI-CM", units := some "cm" },
    { name := some "NXT-US-SI-IN", units := some "in", si_max := some 1000, decimals := some 1 },
    { name := some "NXT-US-LIST", raw_max := some 1, si_max := some 1 } ]
  i2c_mode_info := [
    { set_mode_reg := some 0x41, set_mode_data := some 0x02, read_data_reg := some 0x42,
      pin1_state := some "EV3_INPUT_PORT_GPIO_HIGH" },
    { set_mode_reg := some 0x41, set_mode_data := some 0x02, read_data_reg := some 0x42,
      pin1_state := some "EV3_INPUT_PORT_GPIO_HIGH" },
    { set_mode_reg := some 0x41, set_mode_data := some 0x01, read_data_reg := some 0x42,
      pin1_state := some "EV3_INPUT_PORT_GPIO_HIGH" },
    { set_mode_reg := some 0x41, set_mode_data := some 0x01, read_data_reg := some 0x42,
      pin1_state := some "EV3_INPUT_PORT_GPIO_HIGH" },
    { set_mode_reg := some 0x41, set_mode_data := some 0x03, read_data_reg := some 0x42,
      pin1_state := some "EV3_INPUT_PORT_GPIO_HIGH" } ]

/-- The `[LEGO_POWER_STORAGE_SENSOR]` entry of `nxt_i2c_sensor_defs`. -/
def LEGO_POWER_STORAGE_SENSOR : nxt_i2c_sensor_info where
  name := "lego-power-storage"
  vendor_id := "LEGO"
  product_id := ""
  num_modes := 8
  ms_mode_info := [
    { name := some "ES-IN-VOLT", units := some "V", raw_max := some 10000, si_max := some 10000,
      decimals := some 3, data_type := some msensor_data_type.MSENSOR_DATA_S16_BE },
    { name := some "ES-IN-AMP", units := some "A", raw_max := some 10000, si_max := some 10000,
      decimals := some 3, data_type := some msensor_data_type.MSENSOR_DATA_S16_BE },
    { name := some "ES-OUT-VOLT", units := some "V", raw_max := some 10000, si_max := some 10000,
      decimals := some 3, data_type := some msensor_data_type.MSENSOR_DATA_S16_BE },
    { name := some "ES-OUT-AMP", units := some "A", raw_max := some 10000, si_max := some 10000,
      decimals := some 3, data_type := some msensor_data_type.MSENSOR_DATA_S16_BE },
    { name := some "ES-JOULE", units := some "J", raw_max := some 100, si_max := some 100,
      data_type := some msensor_data_type.MSENSOR_DATA_S16_BE },
    { name := some "ES-IN-WATT", units := some "W", raw_max := some 10000, si_max := some 10000,
      decimals := some 3, data_type := some msensor_data_type.MSENSOR_DATA_S16_BE },
    { name := some "ES-OUT-WATT", units := some "W", raw_max := some 10000, si_max := some 10000,
      decimals := some 3, data_type := some msensor_data_type.MSENSOR_DATA_S16_BE },
    { name := some "ES-ALL", raw_max := some 10000, si_max := some 10000, decimals := some 3,
      data_sets := some 7, data_type := some msensor_data_type.MSENSOR_DATA_S16_BE } ]
  i2c_mode_info := [
    { read_data_reg := some 0x0A },
    { read_data_reg := some 0x0C },
    { read_data_reg := some 0x0E },
    { read_data_reg := some 0x10 },
    { read_data_reg := some 0x12 },
    { read_data_reg := some 0x14 },
    { read_data_reg := some 0x16 },
    { read_data_reg := some 0x0A } ]

/-- The `[HT_NXT_PIR_SENSOR]` entry of `nxt_i2c_sensor_defs`. -/
def HT_NXT_PIR_SENSOR : nxt_i2c_sensor_info where
  name := "ht-nxt-pir"
  vendor_id := "HITECHNC"
  product_id := "PIR"
  num_modes := 1
  ms_mode_info := [
    { name := some "HT-PIR", pct_min := some (-100), si_min := some (-100), si_max := some 100,
      units := some "pct" } ]
  i2c_mode_info := [
    { read_data_reg := some 0x42 } ]

/-- The `[HT_NXT_BAROMETRIC_SENSOR]` entry of `nxt_i2c_sensor_defs`. -/
def HT_NXT_BAROMETRIC_SENSOR : nxt_i2c_sensor_info where
  name := "ht-nxt-barometric"
  vendor_id := "HiTechnc"
  product_id := "Barometr"
  num_modes := 2
  ms_mode_info := [
    { name := some "HT-BAR-PRES", raw_min := some 30400, raw_max := some 29400,
      si_max := some 3000, decimals := some 1, units := some "m" },
    { name := some "HT-BAR-TEMP", raw_max := some 1000, si_max := some 1000, decimals := some 1,
      units := some "C" } ]
  i2c_mode_info := [
    { read_data_reg := some 0x42 },
    { read_data_reg := some 0x42 } ]

/-- The `[HT_NXT_IR_SEEKER_SENSOR_V2]` entry of `nxt_i2c_sensor_defs`. -/
def HT_NXT_IR_SEEKER_SENSOR_V2 : nxt_i2c_sensor_info where
  name := "ht-nxt-ir-seeker-v2"
  vendor_id := "HiTechnc"
  product_id := "NewIRDir"
  num_modes := 4
  ms_mode_info := [
    { name := some "HT-DIR-DC", raw_max := some 9, si_max := some 9 },
    { name := some "HT-DIR-AC", raw_max := some 9, si_max := some 9 },
    { name := some "HT-DIR-DALL", data_sets := some 7 },
    { name := some "HT-DIR-AALL", data_sets := some 6 } ]
  i2c_mode_info := [
    { read_data_reg := some 0x42 },
    { read_data_reg := some 0x49 },
    { read_data_reg := some 0x42 },
    { read_data_reg := some 0x49 } ]

/-- The `[HT_NXT_COLOR_SENSOR]` entry of `nxt_i2c_sensor_defs`. -/
def HT_NXT_COLOR_SENSOR : nxt_i2c_sensor_info where
  name := "ht-nxt-color"
  vendor_id := "HiTechnc"
  product_id := "Color"
  num_modes := 7
  ms_mode_info := [
    { name := some "HT-COL1-COL", raw_max := some 17, si_max := some 17 },
    { name := some "HT-COL1-RED" },
    { name := some "HT-COL1-GRN" },
    { name := some "HT-COL1-BLU" },
    { name := some "HT-COL1-RAW", raw_max := some 65535, si_max := some 65535,
      data_sets := some 3, data_type := some msensor_data_type.MSENSOR_DATA_U16 },
    { name := some "HT-COL1-NRM", data_sets := some 4 },
    { name := some "HT-COL1-ALL", data_sets := some 4 } ]
  i2c_mode_info := [
    { read_data_reg := some 0x42 },
    { read_data_reg := some 0x43 },
    { read_data_reg := some 0x44 },
    { read_data_reg := some 0x45 },
    { read_data_reg := some 0x46 },
    { read_data_reg := some 0x4C },
    { read_data_reg := some 0x42 } ]

/-- The `[HT_NXT_COLOR_SENSOR_V2]` entry of `nxt_i2c_sensor_defs`. -/
def HT_NXT_COLOR_SENSOR_V2 : nxt_i2c_sensor_info where
  name := "ht-nxt-color-v2"
  vendor_id := "HiTechnc"
  product_id := "ColorPD"
  num_modes := 8
  num_read_only_modes := some 7
  ms_mode_info := [
    { name := some "HT-COL2-COL", raw_max := some 17, si_max := some 17 },
    { name := some "HT-COL2-RED" },
    { name := some "HT-COL2-GRN" },
    { name := some "HT-COL2-BLU" },
    { name := some "HT-COL2-WHT" },
    { name := some "HT-COL2-NRM", data_sets := some 4 },
    { name := some "HT-COL2-ALL", data_sets := some 5 },
    { name := some "HT-COL2-RAW", raw_max := some 65535, si_max := some 65535,
      data_sets := some 4, data_type := some msensor_data_type.MSENSOR_DATA_U16 } ]
  i2c_mode_info := [
    { set_mode_reg := some 0x41, read_data_reg := some 0x42 },
    { set_mode_reg := some 0x41, read_data_reg := some 0x43 },
    { set_mode_reg := some 0x41, read_data_reg := some 0x44 },
    { set_mode_reg := some 0x41, read_data_reg := some 0x45 },
    { set_mode_reg := some 0x41, read_data_reg := some 0x46 },
    { set_mode_reg := some 0x41, read_data_reg := some 0x47 },
    { set_mode_reg := some 0x41, read_data_reg := some 0x42 },
    { set_mode_reg := some 0x41, set_mode_data := some 0x03, read_data_reg := some 0x42 } ]

/-- The `[HT_NXT_ANGLE_SENSOR]` entry of `nxt_i2c_sensor_defs`. -/
def HT_NXT_ANGLE_SENSOR : nxt_i2c_sensor_info where
  name := "ht-nxt-angle"
  vendor_id := "HITECHNC"
  product_id := "AnglSnsr"
  num_modes := 4
  num_read_only_modes := some 3
  ms_mode_info := [
    { name := some "HT-ANG-DEG2", raw_max := some 180, si_max := some 180, units := some "deg" },
    { name := some "HT-ANG-ACC", raw_min := some (-2147483648), raw_max := some 2147483647,
      si_min := some (-2147483648), si_max := some 2147483647,
      data_type := some msensor_data_type.MSENSOR_DATA_S32, figures := some 9,
      units := some "deg" },
    { name := some "HT-ANG-RPM", raw_min := some (-32768), raw_max := some 32767,
      si_min := some (-32768), si_max := some 32767,
      data_type := some msensor_data_type.MSENSOR_DATA_S16, units := some "RPM" },
    { name := some "HT-ANG-RSET", raw_max := some 180, si_max := some 180, units := some "deg" } ]
  i2c_mode_info := [
    { read_data_reg := some 0x42 },
    { read_data_reg := some 0x44 },
    { read_data_reg := some 0x46 },
    { set_mode_reg := some 0x41, set_mode_data := some 0x52, read_data_reg := some 0x42 } ]

/-- The `[HT_NXT_COMPASS_SENSOR]` entry of `nxt_i2c_sensor_defs`. -/
def HT_NXT_COMPASS_SENSOR : nxt_i2c_sensor_info where
  name := "ht-nxt-compass"
  vendor_id := "HiTechnc"
  product_id := "Compass"
  num_modes := 1
  ms_mode_info := [
    { name := some "HT-CMP-DEG2", raw_max := some 180, si_max := some 180, units := some "deg",
      data_type := some msensor_data_type.MSENSOR_DATA_S8 } ]
  i2c_mode_info := [
    { read_data_reg := some 0x42 } ]

/-- The `[HT_NXT_IR_RECEIVER_SENSOR]` entry of `nxt_i2c_sensor_defs`. -/
def HT_NXT_IR_RECEIVER_SENSOR : nxt_i2c_sensor_info where
  name := "ht-nxt-ir-receiver"
  vendor_id := "HiTechnc"
  product_id := "IRRecv"
  num_modes := 2
  ms_mode_info := [
    { name := some "HT-IRRECV", units := some "pct",
      data_type := some msensor_data_type.MSENSOR_DATA_S8 },
    { name := some "HT-IRRECV-8", data_sets := some 8, units := some "pct",
      data_type := some msensor_data_type.MSENSOR_DATA_S8 } ]
  i2c_mode_info := [
    { read_data_reg := some 0x42 },
    { read_data_reg := some 0x42 } ]

/-- The `[HT_NXT_ACCELERATION_TILT_SENSOR]` entry of `nxt_i2c_sensor_defs`. -/
def HT_NXT_ACCELERATION_TILT_SENSOR : nxt_i2c_sensor_info where
  name := "ht-nxt-accel"
  vendor_id := "HITECHNC"
  product_id := "Accel."
  num_modes := 2
  ms_mode_info := [
    { name := some "HT-ACCL" },
    { name := some "HT-ACCL-ALL", data_sets := some 6 } ]
  i2c_mode_info := [
    { read_data_reg := some 0x42 },
    { read_data_reg := some 0x42 } ]

/-- The `[HT_NXT_IR_LINK_SENSOR]` entry of `nxt_i2c_sensor_defs`. -/
def HT_NXT_IR_LINK_SENSOR : nxt_i2c_sensor_info where
  name := "ht-nxt-ir-link"
  vendor_id := "HiTechnc"
  product_id := "IRLink"
  num_modes := 1
  ms_mode_info := [
    { name := some "HT-IRLINK" } ]
  i2c_mode_info := [
    { read_data_reg := some 0x42 } ]

/-- The `[HT_NXT_SUPER_PRO_SENSOR]` entry of `nxt_i2c_sensor_defs`. -/
def HT_NXT_SUPER_PRO_SENSOR : nxt_i2c_sensor_info where
  name := "ht-super-pro"
  vendor_id := "HiTechnc"
  product_id := "SuperPro"
  num_modes := 5
  ms_mode_info := [
    { name := some "HT-SPRO-AIN", data_sets := some 4,
      data_type := some msensor_data_type.MSENSOR_DATA_U16 },
    { name := some "HT-SPRO-DIN" },
    { name := some "HT-SPRO-DOT" },
    { name := some "HT-SPRO-DCT" },
    { name := some "HT-SPRO-STB" },
    { name := some "HT-SPRO-LED" },
    { name := some "HT-SPRO-AO0", data_sets := some 5 },
    { name := some "HT-SPRO-AO1", data_sets := some 5 } ]
  i2c_mode_info := [
    { read_data_reg := some 0x42 },
    { read_data_reg := some 0x4C },
    { read_data_reg := some 0x4D },
    { read_data_reg := some 0x4E },
    { read_data_reg := some 0x50 },
    { read_data_reg := some 0x51 },
    { read_data_reg := some 0x52 },
    { read_data_reg := some 0x57 } ]

/-- The `[HT_NXT_SENSOR_MUX]` entry of `nxt_i2c_sensor_defs`. -/
def HT_NXT_SENSOR_MUX : nxt_i2c_sensor_info where
  name := "ht-nxt-smux"
  vendor_id := "HiTechnc"
  product_id := "SensrMUX"
  num_modes := 3
  num_read_only_modes := some 1
  ops := [("set_mode_pre_cb", "ht_sensor_mux_set_mode_pre_cb"), ("set_mode_post_cb",
      "ht_sensor_mux_set_mode_post_cb"), ("poll_cb", "ht_sensor_mux_poll_cb"), ("remove_cb",
      "ht_sensor_mux_remove_cb")]
  ms_mode_info := [
    { name := some "HT-SMUX-RUN", data_sets := some 2 },
    { name := some "HT-SMUX-DETECT", data_sets := some 2 },
    { name := some "HT-SMUX-HALT", data_sets := some 2 } ]
  i2c_mode_info := [
    { read_data_reg := some 0x20, set_mode_reg := some 0x20, set_mode_data := some 2 },
    { read_data_reg := some 0x20, set_mode_reg := some 0x20, set_mode_data := some 1 },
    { read_data_reg := some 0x20, set_mode_reg := some 0x20, set_mode_data := some 0 } ]

/-- The `[MS_8CH_SERVO]` entry of `nxt_i2c_sensor_defs`. -/
def MS_8CH_SERVO : nxt_i2c_sensor_info where
  name := "ms-8ch-servo"
  vendor_id := "mndsnsrs"
  product_id := "NXTServo"
  num_modes := 2
  ops := [("probe_cb", "ms_8ch_servo_probe_cb"), ("remove_cb", "ms_8ch_servo_remove_cb")]
  ms_mode_info := [
    { name := some "MS-8CH-SERVO-V3", raw_min := some 127, raw_max := some 255,
      si_min := some 4700, si_max := some 9400, decimals := some 3, units := some "V" },
    { name := some "MS-8CH-SERVO", raw_min := some 127, raw_max := some 255, si_min := some 4700,
      si_max := some 9400, decimals := some 3, units := some "V" } ]
  i2c_mode_info := [
    { read_data_reg := some 0x62 },
    { read_data_reg := some 0x41 } ]

/-- The `[MS_LIGHT_SENSOR_ARRAY]` entry of `nxt_i2c_sensor_defs`. -/
def MS_LIGHT_SENSOR_ARRAY : nxt_i2c_sensor_info where
  name := "ms-light-array"
  vendor_id := "mndsnsrs"
  product_id := "LSArray"
  num_modes := 7
  num_read_only_modes := some 2
  ms_mode_info := [
    { name := some "MS-LSA-CAL", raw_max := some 100, si_max := some 100, data_sets := some 8,
      units := some "pct" },
    { name := some "MS-LSA-RAW", raw_max := some 65535, si_max := some 65535,
      data_sets := some 8, data_type := some msensor_data_type.MSENSOR_DATA_S16 },
    { name := some "MS-LSA-C-W", raw_max := some 100, si_max := some 100, data_sets := some 8,
      units := some "pct" },
    { name := some "MS-LSA-C-B", raw_max := some 100, si_max := some 100, data_sets := some 8,
      units := some "pct" },
    { name := some "MS-LSA-C-A", raw_max := some 100, si_max := some 100, data_sets := some 8,
      units := some "pct" },
    { name := some "MS-LSA-C-E", raw_max := some 100, si_max := some 100, data_sets := some 8,
      units := some "pct" },
    { name := some "MS-LSA-C-U", raw_max := some 100, si_max := some 100, data_sets := some 8,
      units := some "pct" } ]
  i2c_mode_info := [
    { read_data_reg := some 0x42 },
    { read_data_reg := some 0x6A },
    { read_data_reg := some 0x42, set_mode_reg := some 0x41, set_mode_data := some 87 },
    { read_data_reg := some 0x42, set_mode_reg := some 0x41, set_mode_data := some 66 },
    { read_data_reg := some 0x42, set_mode_reg := some 0x41, set_mode_data := some 65 },
    { read_data_reg := some 0x42, set_mode_reg := some 0x41, set_mode_data := some 69 },
    { read_data_reg := some 0x42, set_mode_reg := some 0x41, set_mode_data := some 85 } ]

/-- The table `nxt_i2c_sensor_defs`, in the order of the source. -/
def nxt_i2c_sensor_defs : List nxt_i2c_sensor_info :=
  [UNKNOWN_I2C_SENSOR,
    LEGO_NXT_ULTRASONIC_SENSOR,
    LEGO_POWER_STORAGE_SENSOR,
    HT_NXT_PIR_SENSOR,
    HT_NXT_BAROMETRIC_SENSOR,
    HT_NXT_IR_SEEKER_SENSOR_V2,
    HT_NXT_COLOR_SENSOR,
    HT_NXT_COLOR_SENSOR_V2,
    HT_NXT_ANGLE_SENSOR,
    HT_NXT_COMPASS_SENSOR,
    HT_NXT_IR_RECEIVER_SENSOR,
    HT_NXT_ACCELERATION_TILT_SENSOR,
    HT_NXT_IR_LINK_SENSOR,
    HT_NXT_SUPER_PRO_SENSOR,
    HT_NXT_SENSOR_MUX,
    MS_8CH_SERVO,
    MS_LIGHT_SENSOR_ARRAY]

/-- The element `i2c_mode_info[i]` of an entry: an index the initialiser does not
reach is an all-zero element, with no field named. -/
def nxt_i2c_sensor_info.i2c_mode (s : nxt_i2c_sensor_info) (i : Nat) :
    nxt_i2c_sensor_mode_info :=
  s.i2c_mode_info.getD i {}

/-- Whether mode index `i` of an entry is given a descriptor: a name in
`ms_mode_info` and a `read_data_reg` in `i2c_mode_info`, the two values the
table's documentation requires of a mode. -/
def nxt_i2c_sensor_info.has_descriptor (s : nxt_i2c_sensor_info) (i : Nat) : Bool :=
  (s.mode i).name.isSome && (s.i2c_mode i).read_data_reg.isSome

/-- The value of `data_type` with the documented default applied ("default
MSENSOR_DATA_U8"). -/
def msensor_mode_info.data_type_value (m : msensor_mode_info) : msensor_data_type :=
  m.data_type.getD msensor_data_type.MSENSOR_DATA_U8

/-- The least integer a value of the data type can hold. -/
def msensor_data_type.min_value : msensor_data_type → Int
  | MSENSOR_DATA_U8 => 0
  | MSENSOR_DATA_S8 => -128
  | MSENSOR_DATA_U16 => 0
  | MSENSOR_DATA_S16 => -32768
  | MSENSOR_DATA_S16_BE => -32768
  | MSENSOR_DATA_S32 => -2147483648

/-- The greatest integer a value of the data type can hold. -/
def msensor_data_type.max_value : msensor_data_type → Int
  | MSENSOR_DATA_U8 => 255
  | MSENSOR_DATA_S8 => 127
  | MSENSOR_DATA_U16 => 65535
  | MSENSOR_DATA_S16 => 32767
  | MSENSOR_DATA_S16_BE => 32767
  | MSENSOR_DATA_S32 => 2147483647

/-- Whether an integer is representable in the data type of the mode. -/
def msensor_mode_info.representable (m : msensor_mode_info) (v : Int) : Bool :=
  decide (m.data_type_value.min_value ≤ v ∧ v ≤ m.data_type_value.max_value)

/-! ## Conversions on small values -/

theorem to_u16_of_small (n : Nat) (h : n < 65536) : to_u16 (n : Int) = n := by
  unfold to_u16
  have h1 : ((n : Int) % 65536) = (n : Int) := Int.emod_eq_of_lt (by omega) (by omega)
  rw [h1]
  exact Int.toNat_ofNat n

theorem to_int_of_small (n : Nat) (h : n < 2 ^ 31) : to_int n = (n : Int) := by
  unfold to_int
  have h1 : n % 2 ^ 32 = n := Nat.mod_eq_of_lt (by omega)
  rw [h1, if_pos h]

theorem to_u8_of_small (n : Nat) (h : n < 256) : to_u8 (n : Int) = n := by
  unfold to_u8
  have h1 : ((n : Int) % 256) = (n : Int) := Int.emod_eq_of_lt (by omega) (by omega)
  rw [h1]
  exact Int.toNat_ofNat n

theorem position_reg (c : Nat) (hc : c < 8) : to_u8 (0x42 + (c : Int) * 2) = 0x42 + 2 * c := by
  have h := to_u8_of_small (0x42 + 2 * c) (by omega)
  rw [← h]
  congr 1
  push_cast
  ring

theorem get_rate_reg (c : Nat) (hc : c < 8) : to_u8 (0x52 + (c : Int)) = 0x52 + c := by
  have h := to_u8_of_small (0x52 + c) (by omega)
  rw [← h]
  congr 1

theorem set_rate_reg (c : Nat) (hc : c < 8) : to_u8 (0x52 + (c : Int) * 2) = 0x52 + 2 * c := by
  have h := to_u8_of_small (0x52 + 2 * c) (by omega)
  rw [← h]
  congr 1
  push_cast
  ring

/-! ## Servo rate quantisation -/

theorem set_rate_scaled_eq (x : Nat) :
    ms_8ch_servo_set_rate_scaled x =
      some (if 24000 ≤ x then 1 else if x < 94 then 0 else ((24000 / x : Nat) : Int)) := by
  unfold ms_8ch_servo_set_rate_scaled
  by_cases h1 : 24000 ≤ x
  · simp [h1]
  · by_cases h2 : x < 94
    · simp [h1, h2]
    · have hx : x ≠ 0 := by omega
      have hq : 24000 / x < 2 ^ 31 := by
        have : 24000 / x ≤ 24000 := Nat.div_le_self _ _
        omega
      simp [h1, h2, c_udiv, hx, to_int_of_small _ hq]

theorem set_rate_quotient_le (x : Nat) (h : 94 ≤ x) : 24000 / x ≤ 255 := by
  have h1 : 24000 / x ≤ 24000 / 94 := Nat.div_le_div_left h (by decide)
  have h2 : 24000 / 94 = 255 := by decide
  omega

/-- C1: for every unsigned requested rate `x`, `ms_8ch_servo_set_rate` issues exactly
one bus transfer, a word write, and the divisor it writes is 1 when `x ≥ 24000`,
0 when `x < 94`, and `⌊24000 / x⌋` otherwise. -/
theorem ms_8ch_servo_set_rate_divisor {σ : Type} (client : i2c_client σ) (s : σ)
    (id x : Nat) :
    ∃ r, ms_8ch_servo_set_rate (traced client) (s, []) id x = some r ∧
      r.2.2 = [bus_transfer.write_word_data (to_u8 (0x52 + (id : Int) * 2))
        (if 24000 ≤ x then 1 else if x < 94 then 0 else ⌊(24000 : ℚ) / (x : ℚ)⌋₊)] := by
  have hfl : ⌊(24000 : ℚ) / (x : ℚ)⌋₊ = 24000 / x := by
    have := Nat.floor_div_eq_div (α := ℚ) 24000 x
    simpa using this
  rw [hfl]
  unfold ms_8ch_servo_set_rate
  rw [set_rate_scaled_eq]
  refine ⟨_, rfl, ?_⟩
  by_cases h1 : 24000 ≤ x
  · simp [h1, traced, to_u16]
  · by_cases h2 : x < 94
    · simp [h1, h2, traced, to_u16]
    · have hq : 24000 / x < 65536 := by
        have := set_rate_quotient_le x (by omega)
        omega
      simp only [if_neg h1, if_neg h2, to_u16_of_small _ hq, traced, List.nil_append]

theorem set_rate_latch (w id x : Nat) :
    (ms_8ch_servo_set_rate latch w id x).map Prod.snd =
      some (if 24000 ≤ x then 1 else if x < 94 then 0 else 24000 / x) := by
  unfold ms_8ch_servo_set_rate
  rw [set_rate_scaled_eq]
  by_cases h1 : 24000 ≤ x
  · simp [h1, latch, to_u16]
  · by_cases h2 : x < 94
    · simp [h1, h2, latch, to_u16]
    · have hq : 24000 / x < 65536 := by
        have := set_rate_quotient_le x (by omega)
        omega
      simp only [if_neg h1, if_neg h2, to_u16_of_small _ hq, latch, Option.map_some',
        Nat.mod_eq_of_lt hq]

/-- C2: feeding the divisor `ms_8ch_servo_set_rate` stores back as the word
`ms_8ch_servo_get_rate` reads (a bus that returns the last word written,
whatever the address) gives the clamp table: every `x ≥ 24000` stores 1, every
`x < 94` stores 0 and reads back 0, 94 stores 255, 12000 stores 2 and reads
back 12000. -/
theorem ms_8ch_servo_rate_clamp_table (w id id2 : Nat) :
    (∀ x, 24000 ≤ x → (ms_8ch_servo_set_rate latch w id x).map Prod.snd = some 1) ∧
    (∀ x, x < 94 →
      (ms_8ch_servo_set_rate latch w id x).map Prod.snd = some 0 ∧
      (ms_8ch_servo_set_rate latch w id x).map
        (fun r => (ms_8ch_servo_get_rate latch r.2 id2).1) = some (some 0)) ∧
    (ms_8ch_servo_set_rate latch w id 94).map Prod.snd = some 255 ∧
    (ms_8ch_servo_set_rate latch w id 12000).map Prod.snd = some 2 ∧
    (ms_8ch_servo_set_rate latch w id 12000).map
      (fun r => (ms_8ch_servo_get_rate latch r.2 id2).1) = some (some 12000) := by
  have key : ∀ x d, (ms_8ch_servo_set_rate latch w id x).map Prod.snd = some d →
      (ms_8ch_servo_set_rate latch w id x).map
        (fun r => (ms_8ch_servo_get_rate latch r.2 id2).1) =
          some (ms_8ch_servo_get_rate latch d id2).1 := by
    intro x d h
    cases hx : ms_8ch_servo_set_rate latch w id x with
    | none => rw [hx] at h; simp at h
    | some r =>
      rw [hx] at h
      simp only [Option.map_some', Option.some.injEq] at h
      simp [h]
  have h0 : (ms_8ch_servo_get_rate latch 0 id2).1 = some 0 := by
    simp [ms_8ch_servo_get_rate, latch]
  have h2 : (ms_8ch_servo_get_rate latch 2 id2).1 = some 12000 := by
    simp [ms_8ch_servo_get_rate, latch, c_sdiv]
    decide
  refine ⟨?_, ?_, ?_, ?_, ?_⟩
  · intro x hx
    rw [set_rate_latch, if_pos hx]
  · intro x hx
    have hs : (ms_8ch_servo_set_rate latch w id x).map Prod.snd = some 0 := by
      rw [set_rate_latch, if_neg (by omega), if_pos hx]
    exact ⟨hs, by rw [key x 0 hs, h0]⟩
  · rw [set_rate_latch]; decide
  · rw [set_rate_latch]; decide
  · have hs : (ms_8ch_servo_set_rate latch w id 12000).map Prod.snd = some 2 := by
      rw [set_rate_latch]; decide
    rw [key 12000 2 hs, h2]

/-- C3: for every result `r` of the word read issued by `ms_8ch_servo_get_rate`,
the function returns (its division is always defined) `r` itself when `r` is
negative, 0 when `r = 0`, and `⌊24000 / r⌋` otherwise. -/
theorem ms_8ch_servo_get_rate_result {σ : Type} (client : i2c_client σ) (s : σ) (id : Nat) :
    (ms_8ch_servo_get_rate client s id).1 =
      some (if (client.i2c_smbus_read_word_data s (to_u8 (0x52 + (id : Int)))).1 < 0 then
              (client.i2c_smbus_read_word_data s (to_u8 (0x52 + (id : Int)))).1
            else if (client.i2c_smbus_read_word_data s (to_u8 (0x52 + (id : Int)))).1 = 0 then 0
            else ⌊(24000 : ℚ) /
              ((client.i2c_smbus_read_word_data s (to_u8 (0x52 + (id : Int)))).1 : ℚ)⌋) := by
  unfold ms_8ch_servo_get_rate
  generalize (client.i2c_smbus_read_word_data s (to_u8 (0x52 + (id : Int)))) = r
  obtain ⟨ret, s2⟩ := r
  simp only
  by_cases h1 : ret < 0
  · simp [h1]
  · by_cases h2 : ret = 0
    · simp [h2]
    · have hpos : 0 < ret := by omega
      have hfl : ⌊(24000 : ℚ) / (ret : ℚ)⌋ = 24000 / ret := by
        obtain ⟨n, hn⟩ := Int.eq_ofNat_of_zero_le (le_of_lt hpos)
        have h := Rat.floor_intCast_div_natCast 24000 n
        rw [hn]
        simpa using h
      have hdiv : Int.tdiv 24000 ret = 24000 / ret := Int.tdiv_eq_ediv (by decide) (by omega)
      have hne : ¬ ((24000 : Int) = -(2 ^ 31) ∧ ret = -1) := by
        intro h; omega
      simp only [if_neg h1, if_neg h2, c_sdiv, hfl, hdiv, hne, if_false]

/-- C4 (failing input, channel 1): `ms_8ch_servo_set_rate` writes its word at
register `0x54` while `ms_8ch_servo_get_rate` reads the word at `0x53`; after
`set_rate 12000` on an all-zero byte-addressed register file, `get_rate` on the
same channel returns 46, and on a word-addressed register file it returns 0. -/
theorem ms_8ch_servo_rate_register_mismatch :
    (ms_8ch_servo_set_rate (traced byte_file) (fun _ => 0, []) 1 12000).map (fun r => r.2.2) =
      some [bus_transfer.write_word_data 0x54 2] ∧
    (ms_8ch_servo_get_rate (traced byte_file) (fun _ => 0, []) 1).2.2 =
      [bus_transfer.read_word_data 0x53] ∧
    (ms_8ch_servo_set_rate byte_file (fun _ => 0) 1 12000).map
      (fun r => (ms_8ch_servo_get_rate byte_file r.2 1).1) = some (some 46) ∧
    (ms_8ch_servo_set_rate word_file (fun _ => 0) 1 12000).map
      (fun r => (ms_8ch_servo_get_rate word_file r.2 1).1) = some (some 0) := by
  refine ⟨?_, ?_, ?_, ?_⟩ <;> decide

/-- C5: for every channel `c` in 0..7, `ms_8ch_servo_get_position` and
`ms_8ch_servo_set_position` each issue one word transfer at register
`0x42 + 2 * c`, and over a register file where a word read returns the last
word written at that address, `set_position v` followed by `get_position` on
the same channel returns `v`, for every 16-bit `v`. -/
theorem ms_8ch_servo_position_roundtrip {σ : Type} (client : i2c_client σ) (s : σ)
    (regs : Nat → Nat) (c : Nat) (v : Nat) (hc : c < 8) (hv : v < 65536) :
    (ms_8ch_servo_get_position (traced client) (s, []) c).2.2 =
      [bus_transfer.read_word_data (0x42 + 2 * c)] ∧
    (ms_8ch_servo_set_position (traced client) (s, []) c (v : Int)).2.2 =
      [bus_transfer.write_word_data (0x42 + 2 * c) v] ∧
    (ms_8ch_servo_get_position word_file
      (ms_8ch_servo_set_position word_file regs c (v : Int)).2 c).1 = (v : Int) := by
  unfold ms_8ch_servo_get_position ms_8ch_servo_set_position
  rw [position_reg c hc, to_u16_of_small v hv]
  refine ⟨?_, ?_, ?_⟩
  · simp [traced]
  · simp [traced]
  · simp [word_file]
    omega

theorem ms_8ch_servo_position_roundtrip_witness :
    (3 < 8 ∧ 1500 < 65536) ∧
    ((ms_8ch_servo_get_position (traced latch) (0, []) 3).2.2 =
      [bus_transfer.read_word_data (0x42 + 2 * 3)] ∧
    (ms_8ch_servo_set_position (traced latch) (0, []) 3 ((1500 : Nat) : Int)).2.2 =
      [bus_transfer.write_word_data (0x42 + 2 * 3) 1500] ∧
    (ms_8ch_servo_get_position word_file
      (ms_8ch_servo_set_position word_file (fun _ => 0) 3 ((1500 : Nat) : Int)).2 3).1 =
        ((1500 : Nat) : Int)) :=
  ⟨⟨by decide, by decide⟩,
    ms_8ch_servo_position_roundtrip latch 0 (fun _ => 0) 3 1500 (by decide) (by decide)⟩

/-- On a byte-addressed register file and for distinct channels `i`, `j` in 0..7,
every pairing of a setter on `i` with a getter on `j` other than
`set_rate`/`get_rate` leaves the value read on `j` unchanged. -/
theorem ms_8ch_servo_frame_outside_rate_pair (regs : Nat → Nat) (i j : Nat) (hi : i < 8)
    (hj : j < 8) (hij : i ≠ j) (v : Int) (x : Nat) :
    (ms_8ch_servo_get_position byte_file (ms_8ch_servo_set_position byte_file regs i v).2 j).1 =
      (ms_8ch_servo_get_position byte_file regs j).1 ∧
    (ms_8ch_servo_get_rate byte_file (ms_8ch_servo_set_position byte_file regs i v).2 j).1 =
      (ms_8ch_servo_get_rate byte_file regs j).1 ∧
    (ms_8ch_servo_set_rate byte_file regs i x).map
      (fun r => (ms_8ch_servo_get_position byte_file r.2 j).1) =
        some (ms_8ch_servo_get_position byte_file regs j).1 := by
  have e1 : ¬ (0x42 + 2 * j = 0x42 + 2 * i) := by omega
  have e2 : ¬ (0x42 + 2 * j = 0x42 + 2 * i + 1) := by omega
  have e3 : ¬ (0x42 + 2 * j + 1 = 0x42 + 2 * i) := by omega
  have e4 : ¬ (0x42 + 2 * j + 1 = 0x42 + 2 * i + 1) := by omega
  have f1 : ¬ (0x52 + j = 0x42 + 2 * i) := by omega
  have f2 : ¬ (0x52 + j = 0x42 + 2 * i + 1) := by omega
  have f3 : ¬ (0x52 + j + 1 = 0x42 + 2 * i) := by omega
  have f4 : ¬ (0x52 + j + 1 = 0x42 + 2 * i + 1) := by omega
  have g1 : ¬ (0x42 + 2 * j = 0x52 + 2 * i) := by omega
  have g2 : ¬ (0x42 + 2 * j = 0x52 + 2 * i + 1) := by omega
  have g3 : ¬ (0x42 + 2 * j + 1 = 0x52 + 2 * i) := by omega
  have g4 : ¬ (0x42 + 2 * j + 1 = 0x52 + 2 * i + 1) := by omega
  refine ⟨?_, ?_, ?_⟩
  · simp only [ms_8ch_servo_get_position, ms_8ch_servo_set_position, position_reg i hi,
      position_reg j hj, byte_file, if_neg e1, if_neg e2, if_neg e3, if_neg e4]
  · simp only [ms_8ch_servo_get_rate, ms_8ch_servo_set_position, position_reg i hi,
      get_rate_reg j hj, byte_file, if_neg f1, if_neg f2, if_neg f3, if_neg f4]
    split_ifs <;> rfl
  · unfold ms_8ch_servo_set_rate
    rw [set_rate_scaled_eq]
    simp only [ms_8ch_servo_get_position, set_rate_reg i hi, Option.map_some',
      position_reg j hj, byte_file, if_neg g1, if_neg g2, if_neg g3, if_neg g4]

/-- C6 (failing input, channels 1 and 2): on an all-zero byte-addressed register
file `ms_8ch_servo_get_rate` on channel 2 returns 0; after
`ms_8ch_servo_set_rate 12000` on channel 1 it returns 12000. Both transfers
address register `0x54`. -/
theorem ms_8ch_servo_set_rate_clobbers_other_channel :
    (ms_8ch_servo_get_rate byte_file (fun _ => 0) 2).1 = some 0 ∧
    (ms_8ch_servo_set_rate byte_file (fun _ => 0) 1 12000).map
      (fun r => (ms_8ch_servo_get_rate byte_file r.2 2).1) = some (some 12000) ∧
    (ms_8ch_servo_set_rate (traced byte_file) (fun _ => 0, []) 1 12000).map (fun r => r.2.2) =
      some [bus_transfer.write_word_data 0x54 2] ∧
    (ms_8ch_servo_get_rate (traced byte_file) (fun _ => 0, []) 2).2.2 =
      [bus_transfer.read_word_data 0x54] := by
  refine ⟨?_, ?_, ?_, ?_⟩ <;> decide

/-! ## Multiplexer mode-switch guard -/

/-- C7: whenever the target mode is DETECT and the status register is read
successfully with the HALT bit clear, `ht_sensor_mux_set_mode_pre_cb` returns
`-EPERM`; its only bus transfer is the status read, so the command register is
not consulted and nothing is written. -/
theorem ht_sensor_mux_pre_cb_detect_not_halted {σ : Type} (h : ht_smux_h)
    (client : i2c_client σ) (s : σ) (mode : Nat)
    (hmode : mode = h.HT_SMUX_COMMAND_DETECT)
    (hok : 0 ≤ (client.i2c_smbus_read_byte_data s h.HT_SMUX_STATUS_REG).1)
    (hhalt : (client.i2c_smbus_read_byte_data s h.HT_SMUX_STATUS_REG).1.toNat &&&
      h.HT_SMUX_STATUS_HALT = 0) :
    (ht_sensor_mux_set_mode_pre_cb h (traced client) (s, []) mode).1 = -EPERM ∧
    (ht_sensor_mux_set_mode_pre_cb h (traced client) (s, []) mode).2.2 =
      [bus_transfer.read_byte_data h.HT_SMUX_STATUS_REG] ∧
    ∀ t ∈ (ht_sensor_mux_set_mode_pre_cb h (traced client) (s, []) mode).2.2,
      t.is_write = false := by
  have hnot : ¬ (client.i2c_smbus_read_byte_data s h.HT_SMUX_STATUS_REG).1 < 0 := by omega
  have hrun : ht_sensor_mux_set_mode_pre_cb h (traced client) (s, []) mode =
      (-EPERM, ((client.i2c_smbus_read_byte_data s h.HT_SMUX_STATUS_REG).2,
        [bus_transfer.read_byte_data h.HT_SMUX_STATUS_REG])) := by
    simp [ht_sensor_mux_set_mode_pre_cb, traced, hnot, hmode, hhalt]
  rw [hrun]
  refine ⟨rfl, rfl, ?_⟩
  intro t ht
  simp only [List.mem_singleton] at ht
  rw [ht]
  rfl

theorem ht_sensor_mux_pre_cb_detect_not_halted_witness :
    ((1 : Nat) = ht_smux_documented.HT_SMUX_COMMAND_DETECT ∧
      0 ≤ (byte_file.i2c_smbus_read_byte_data (fun a => if a = 0x21 then 2 else 1)
        ht_smux_documented.HT_SMUX_STATUS_REG).1 ∧
      (byte_file.i2c_smbus_read_byte_data (fun a => if a = 0x21 then 2 else 1)
        ht_smux_documented.HT_SMUX_STATUS_REG).1.toNat &&&
          ht_smux_documented.HT_SMUX_STATUS_HALT = 0) ∧
    ((ht_sensor_mux_set_mode_pre_cb ht_smux_documented (traced byte_file)
        (fun a => if a = 0x21 then 2 else 1, []) 1).1 = -EPERM ∧
    (ht_sensor_mux_set_mode_pre_cb ht_smux_documented (traced byte_file)
        (fun a => if a = 0x21 then 2 else 1, []) 1).2.2 =
      [bus_transfer.read_byte_data ht_smux_documented.HT_SMUX_STATUS_REG] ∧
    ∀ t ∈ (ht_sensor_mux_set_mode_pre_cb ht_smux_documented (traced byte_file)
        (fun a => if a = 0x21 then 2 else 1, []) 1).2.2, t.is_write = false) :=
  ⟨⟨by decide, by decide, by decide⟩,
    ht_sensor_mux_pre_cb_detect_not_halted ht_smux_documented byte_file
      (fun a => if a = 0x21 then 2 else 1) 1 (by decide) (by decide) (by decide)⟩

/-- C8: for every target mode, if the status read and the command read both
succeed and the command register reads DETECT, `ht_sensor_mux_set_mode_pre_cb`
returns a non-zero error, and that error is `-EBUSY` unless the `-EPERM`
condition (target DETECT with the HALT bit clear) holds. -/
theorem ht_sensor_mux_pre_cb_detect_in_progress {σ : Type} (h : ht_smux_h)
    (client : i2c_client σ) (s : σ) (mode : Nat)
    (hst : 0 ≤ (client.i2c_smbus_read_byte_data s h.HT_SMUX_STATUS_REG).1)
    (hcmd : 0 ≤ (client.i2c_smbus_read_byte_data
      (client.i2c_smbus_read_byte_data s h.HT_SMUX_STATUS_REG).2 h.HT_SMUX_COMMAND_REG).1)
    (hdet : (client.i2c_smbus_read_byte_data
      (client.i2c_smbus_read_byte_data s h.HT_SMUX_STATUS_REG).2 h.HT_SMUX_COMMAND_REG).1 =
        (h.HT_SMUX_COMMAND_DETECT : Int)) :
    (ht_sensor_mux_set_mode_pre_cb h client s mode).1 ≠ 0 ∧
    (¬ (mode = h.HT_SMUX_COMMAND_DETECT ∧
        (client.i2c_smbus_read_byte_data s h.HT_SMUX_STATUS_REG).1.toNat &&&
          h.HT_SMUX_STATUS_HALT = 0) →
      (ht_sensor_mux_set_mode_pre_cb h client s mode).1 = -EBUSY) := by
  have hnot : ¬ (client.i2c_smbus_read_byte_data s h.HT_SMUX_STATUS_REG).1 < 0 := by omega
  have hnot2 : ¬ (client.i2c_smbus_read_byte_data
      (client.i2c_smbus_read_byte_data s h.HT_SMUX_STATUS_REG).2 h.HT_SMUX_COMMAND_REG).1 < 0 := by
    omega
  by_cases hp : mode = h.HT_SMUX_COMMAND_DETECT ∧
      (client.i2c_smbus_read_byte_data s h.HT_SMUX_STATUS_REG).1.toNat &&&
        h.HT_SMUX_STATUS_HALT = 0
  · have hrun : (ht_sensor_mux_set_mode_pre_cb h client s mode).1 = -EPERM := by
      simp only [ht_sensor_mux_set_mode_pre_cb, if_neg hnot, if_pos hp]
    rw [hrun]
    exact ⟨by decide, fun hn => absurd hp hn⟩
  · have hrun : (ht_sensor_mux_set_mode_pre_cb h client s mode).1 = -EBUSY := by
      simp only [ht_sensor_mux_set_mode_pre_cb, if_neg hnot, if_neg hp, if_neg hnot2,
        if_pos hdet]
    rw [hrun]
    exact ⟨by decide, fun _ => rfl⟩

theorem ht_sensor_mux_pre_cb_detect_in_progress_witness :
    (0 ≤ (byte_file.i2c_smbus_read_byte_data (fun a => if a = 0x21 then 4 else 1)
        ht_smux_documented.HT_SMUX_STATUS_REG).1 ∧
      0 ≤ (byte_file.i2c_smbus_read_byte_data
        (byte_file.i2c_smbus_read_byte_data (fun a => if a = 0x21 then 4 else 1)
          ht_smux_documented.HT_SMUX_STATUS_REG).2 ht_smux_documented.HT_SMUX_COMMAND_REG).1 ∧
      (byte_file.i2c_smbus_read_byte_data
        (byte_file.i2c_smbus_read_byte_data (fun a => if a = 0x21 then 4 else 1)
          ht_smux_documented.HT_SMUX_STATUS_REG).2 ht_smux_documented.HT_SMUX_COMMAND_REG).1 =
        (ht_smux_documented.HT_SMUX_COMMAND_DETECT : Int)) ∧
    ((ht_sensor_mux_set_mode_pre_cb ht_smux_documented byte_file
        (fun a => if a = 0x21 then 4 else 1) 0).1 ≠ 0 ∧
    (¬ ((0 : Nat) = ht_smux_documented.HT_SMUX_COMMAND_DETECT ∧
        (byte_file.i2c_smbus_read_byte_data (fun a => if a = 0x21 then 4 else 1)
          ht_smux_documented.HT_SMUX_STATUS_REG).1.toNat &&&
          ht_smux_documented.HT_SMUX_STATUS_HALT = 0) →
      (ht_sensor_mux_set_mode_pre_cb ht_smux_documented byte_file
        (fun a => if a = 0x21 then 4 else 1) 0).1 = -EBUSY)) :=
  ⟨⟨by decide, by decide, by decide⟩,
    ht_sensor_mux_pre_cb_detect_in_progress ht_smux_documented byte_file
      (fun a => if a = 0x21 then 4 else 1) 0 (by decide) (by decide) (by decide)⟩

/-- C9: `ht_sensor_mux_set_mode_pre_cb` returns 0 exactly when both register
reads succeed, the command register does not read DETECT, and the target mode
is not DETECT or the HALT bit is set (so DETECT requested while halted with no
detect in progress succeeds). A failed status read is returned unchanged and is
the only transfer issued; a failed command read is returned unchanged. -/
theorem ht_sensor_mux_pre_cb_result {σ : Type} (h : ht_smux_h) (client : i2c_client σ)
    (s : σ) (mode : Nat) :
    ((ht_sensor_mux_set_mode_pre_cb h client s mode).1 = 0 ↔
      (0 ≤ (client.i2c_smbus_read_byte_data s h.HT_SMUX_STATUS_REG).1 ∧
       0 ≤ (client.i2c_smbus_read_byte_data
          (client.i2c_smbus_read_byte_data s h.HT_SMUX_STATUS_REG).2
            h.HT_SMUX_COMMAND_REG).1 ∧
       (client.i2c_smbus_read_byte_data
          (client.i2c_smbus_read_byte_data s h.HT_SMUX_STATUS_REG).2
            h.HT_SMUX_COMMAND_REG).1 ≠ (h.HT_SMUX_COMMAND_DETECT : Int) ∧
       (mode ≠ h.HT_SMUX_COMMAND_DETECT ∨
        (client.i2c_smbus_read_byte_data s h.HT_SMUX_STATUS_REG).1.toNat &&&
          h.HT_SMUX_STATUS_HALT ≠ 0))) ∧
    ((client.i2c_smbus_read_byte_data s h.HT_SMUX_STATUS_REG).1 < 0 →
      (ht_sensor_mux_set_mode_pre_cb h client s mode).1 =
        (client.i2c_smbus_read_byte_data s h.HT_SMUX_STATUS_REG).1 ∧
      (ht_sensor_mux_set_mode_pre_cb h (traced client) (s, []) mode).2.2 =
        [bus_transfer.read_byte_data h.HT_SMUX_STATUS_REG]) ∧
    (0 ≤ (client.i2c_smbus_read_byte_data s h.HT_SMUX_STATUS_REG).1 →
      ¬ (mode = h.HT_SMUX_COMMAND_DETECT ∧
        (client.i2c_smbus_read_byte_data s h.HT_SMUX_STATUS_REG).1.toNat &&&
          h.HT_SMUX_STATUS_HALT = 0) →
      (client.i2c_smbus_read_byte_data
          (client.i2c_smbus_read_byte_data s h.HT_SMUX_STATUS_REG).2
            h.HT_SMUX_COMMAND_REG).1 < 0 →
      (ht_sensor_mux_set_mode_pre_cb h client s mode).1 =
        (client.i2c_smbus_read_byte_data
          (client.i2c_smbus_read_byte_data s h.HT_SMUX_STATUS_REG).2
            h.HT_SMUX_COMMAND_REG).1 ∧
      (ht_sensor_mux_set_mode_pre_cb h (traced client) (s, []) mode).2.2 =
        [bus_transfer.read_byte_data h.HT_SMUX_STATUS_REG,
         bus_transfer.read_byte_data h.HT_SMUX_COMMAND_REG]) := by
  have hE : (-EPERM : Int) ≠ 0 := by decide
  have hB : (-EBUSY : Int) ≠ 0 := by decide
  refine ⟨?_, ?_, ?_⟩
  · unfold ht_sensor_mux_set_mode_pre_cb
    by_cases h1 : (client.i2c_smbus_read_byte_data s h.HT_SMUX_STATUS_REG).1 < 0
    · simp only [if_pos h1]
      constructor
      · intro h0; omega
      · rintro ⟨h0, _⟩; omega
    · by_cases hp : mode = h.HT_SMUX_COMMAND_DETECT ∧
          (client.i2c_smbus_read_byte_data s h.HT_SMUX_STATUS_REG).1.toNat &&&
            h.HT_SMUX_STATUS_HALT = 0
      · simp only [if_neg h1, if_pos hp]
        constructor
        · intro h0; exact absurd h0 hE
        · rintro ⟨_, _, _, hor⟩
          rcases hor with hm | hm
          · exact absurd hp.1 hm
          · exact absurd hp.2 hm
      · have hor : mode ≠ h.HT_SMUX_COMMAND_DETECT ∨
            (client.i2c_smbus_read_byte_data s h.HT_SMUX_STATUS_REG).1.toNat &&&
              h.HT_SMUX_STATUS_HALT ≠ 0 := by
          by_cases hm : mode = h.HT_SMUX_COMMAND_DETECT
          · right; intro hz; exact hp ⟨hm, hz⟩
          · left; exact hm
        by_cases h2 : (client.i2c_smbus_read_byte_data
            (client.i2c_smbus_read_byte_data s h.HT_SMUX_STATUS_REG).2
              h.HT_SMUX_COMMAND_REG).1 < 0
        · simp only [if_neg h1, if_neg hp, if_pos h2]
          constructor
          · intro h0; omega
          · rintro ⟨_, h0, _⟩; omega
        · by_cases h3 : (client.i2c_smbus_read_byte_data
              (client.i2c_smbus_read_byte_data s h.HT_SMUX_STATUS_REG).2
                h.HT_SMUX_COMMAND_REG).1 = (h.HT_SMUX_COMMAND_DETECT : Int)
          · simp only [if_neg h1, if_neg hp, if_neg h2, if_pos h3]
            constructor
            · intro h0; exact absurd h0 hB
            · rintro ⟨_, _, hne, _⟩; exact absurd h3 hne
          · simp only [if_neg h1, if_neg hp, if_neg h2, if_neg h3]
            constructor
            · intro _; exact ⟨by omega, by omega, h3, hor⟩
            · intro _; trivial
  · intro h1
    constructor
    · simp only [ht_sensor_mux_set_mode_pre_cb, if_pos h1]
    · simp [ht_sensor_mux_set_mode_pre_cb, traced, h1]
  · intro h1 hp h2
    have h1n : ¬ (client.i2c_smbus_read_byte_data s h.HT_SMUX_STATUS_REG).1 < 0 := by omega
    constructor
    · simp only [ht_sensor_mux_set_mode_pre_cb, if_neg h1n, if_neg hp, if_pos h2]
    · have hp2 : ¬ (mode = h.HT_SMUX_COMMAND_DETECT ∧
          ((traced client).i2c_smbus_read_byte_data (s, []) h.HT_SMUX_STATUS_REG).1.toNat &&&
            h.HT_SMUX_STATUS_HALT = 0) := hp
      have h1t : ¬ ((traced client).i2c_smbus_read_byte_data (s, [])
          h.HT_SMUX_STATUS_REG).1 < 0 := h1n
      have h2t : ((traced client).i2c_smbus_read_byte_data
          ((traced client).i2c_smbus_read_byte_data (s, []) h.HT_SMUX_STATUS_REG).2
            h.HT_SMUX_COMMAND_REG).1 < 0 := h2
      simp only [ht_sensor_mux_set_mode_pre_cb, if_neg h1t, if_neg hp2, if_pos h2t]
      simp [traced]

/-! ## Multiplexer channel registration -/

/-- C10: `ht_sensor_mux_set_mode_post_cb` called with mode 0 (run) while no channel
array exists. If the four registrations succeed, exactly four ports are added to
the registered ones, for channels 0..3 with port ids 1..4, and nothing is
unregistered. If the registration of channel `k` is the first to fail, the ports
of channels `k-1`, ..., 0 are each unregistered once (and nothing else is), no
further registration is attempted, and the registered ports are those from
before the call. -/
theorem ht_sensor_mux_post_cb_all_or_nothing (in_port_name : String) (st : mux_state)
    (hnull : st.callback_data = none)
    (hwf : ∀ p ∈ st.ports.registered, p.handle < st.ports.register_calls) :
    ((∀ j, j < 4 → st.ports.register_result (st.ports.register_calls + j) = none) →
      (ht_sensor_mux_set_mode_post_cb in_port_name st 0).ports.registered =
        st.ports.registered ++ (List.range 4).map
          (fun i => ⟨st.ports.register_calls + i, in_port_name ++ ":mux", i + 1, i⟩) ∧
      (ht_sensor_mux_set_mode_post_cb in_port_name st 0).ports.unregistered =
        st.ports.unregistered ∧
      (ht_sensor_mux_set_mode_post_cb in_port_name st 0).ports.register_calls =
        st.ports.register_calls + 4) ∧
    (∀ k e, k < 4 →
      (∀ j, j < k → st.ports.register_result (st.ports.register_calls + j) = none) →
      st.ports.register_result (st.ports.register_calls + k) = some e →
      (ht_sensor_mux_set_mode_post_cb in_port_name st 0).ports.registered =
        st.ports.registered ∧
      (ht_sensor_mux_set_mode_post_cb in_port_name st 0).ports.unregistered =
        st.ports.unregistered ++ (List.range k).reverse.map
          (fun i => port_ptr.port (st.ports.register_calls + i)) ∧
      (ht_sensor_mux_set_mode_post_cb in_port_name st 0).ports.register_calls =
        st.ports.register_calls + k + 1) := by
  have hold : ∀ a ∈ st.ports.registered, ∀ j, ¬ a.handle = st.ports.register_calls + j := by
    intro a ha j
    have := hwf a ha
    omega
  have hold0 : ∀ a ∈ st.ports.registered, ¬ a.handle = st.ports.register_calls := by
    intro a ha
    have := hwf a ha
    omega
  refine ⟨?_, ?_⟩
  · intro hs
    have h0 : st.ports.register_result st.ports.register_calls = none := hs 0 (by omega)
    have h1 := hs 1 (by omega)
    have h2 := hs 2 (by omega)
    have h3 := hs 3 (by omega)
    refine ⟨?_, ?_, ?_⟩ <;>
      simp [ht_sensor_mux_set_mode_post_cb, hnull, kzalloc_ports, register_loop,
        NUM_HT_SMUX_CH, legoev3_port_register, store_port, load_port, IS_ERR, h0, h1, h2, h3,
        List.range_succ]
  · intro k e hk hprev hfail
    interval_cases k
    · have hf : st.ports.register_result st.ports.register_calls = some e := hfail
      refine ⟨?_, ?_, ?_⟩ <;>
        simp [ht_sensor_mux_set_mode_post_cb, hnull, kzalloc_ports, register_loop,
          NUM_HT_SMUX_CH, legoev3_port_register, store_port, load_port, IS_ERR, hf,
          unregister_down, legoev3_port_unregister, kfree_ports]
    · have h0 : st.ports.register_result st.ports.register_calls = none := hprev 0 (by omega)
      refine ⟨?_, ?_, ?_⟩ <;>
        simp [ht_sensor_mux_set_mode_post_cb, hnull, kzalloc_ports, register_loop,
          NUM_HT_SMUX_CH, legoev3_port_register, store_port, load_port, IS_ERR, h0, hfail,
          unregister_down, legoev3_port_unregister, kfree_ports, List.range_succ]
      exact hold0
    · have h0 : st.ports.register_result st.ports.register_calls = none := hprev 0 (by omega)
      have h1 := hprev 1 (by omega)
      refine ⟨?_, ?_, ?_⟩ <;>
        simp [ht_sensor_mux_set_mode_post_cb, hnull, kzalloc_ports, register_loop,
          NUM_HT_SMUX_CH, legoev3_port_register, store_port, load_port, IS_ERR, h0, h1, hfail,
          unregister_down, legoev3_port_unregister, kfree_ports, List.range_succ]
      exact fun a ha => ⟨hold0 a ha, hold a ha 1⟩
    · have h0 : st.ports.register_result st.ports.register_calls = none := hprev 0 (by omega)
      have h1 := hprev 1 (by omega)
      have h2 := hprev 2 (by omega)
      refine ⟨?_, ?_, ?_⟩ <;>
        simp [ht_sensor_mux_set_mode_post_cb, hnull, kzalloc_ports, register_loop,
          NUM_HT_SMUX_CH, legoev3_port_register, store_port, load_port, IS_ERR, h0, h1, h2,
          hfail, unregister_down, legoev3_port_unregister, kfree_ports, List.range_succ]
      exact fun a ha => ⟨hold0 a ha, hold a ha 1, hold a ha 2⟩

theorem ht_sensor_mux_post_cb_all_or_nothing_witness :
    ((fresh_state [2]).callback_data = none ∧
      ∀ p ∈ (fresh_state [2]).ports.registered,
        p.handle < (fresh_state [2]).ports.register_calls) ∧
    ((ht_sensor_mux_set_mode_post_cb "in1" (fresh_state [2]) 0).ports.registered = [] ∧
      (ht_sensor_mux_set_mode_post_cb "in1" (fresh_state [2]) 0).ports.unregistered =
        [port_ptr.port 1, port_ptr.port 0] ∧
      (ht_sensor_mux_set_mode_post_cb "in1" (fresh_state [2]) 0).ports.register_calls = 3) :=
  ⟨⟨rfl, fun _ hp => absurd hp (List.not_mem_nil _)⟩,
    (ht_sensor_mux_post_cb_all_or_nothing "in1" (fresh_state [2]) rfl
      (fun _ hp => absurd hp (List.not_mem_nil _))).2 2 (-12) (by decide)
      (fun j hj => by interval_cases j <;> decide) (by decide)⟩

/-! ## Multiplexer channel array lifetime -/

/-- C11 (failing input): from a state with no channel array, run mode is
requested and the third registration fails. Before the call `callback_data` is
`NULL`; after it `callback_data` holds the address of the channel array, and
that array has been freed. The same holds when the first registration fails. -/
theorem ht_sensor_mux_post_cb_failure_leaves_pointer :
    (fresh_state [2]).callback_data = none ∧
    (ht_sensor_mux_set_mode_post_cb "in1" (fresh_state [2]) 0).callback_data = some 0 ∧
    (ht_sensor_mux_set_mode_post_cb "in1" (fresh_state [2]) 0).heap 0 = none ∧
    (ht_sensor_mux_set_mode_post_cb "in1" (fresh_state [0]) 0).callback_data = some 0 ∧
    (ht_sensor_mux_set_mode_post_cb "in1" (fresh_state [0]) 0).heap 0 = none := by
  refine ⟨?_, ?_, ?_, ?_, ?_⟩ <;> decide

/-- C12 (failing input): from a state with no channel array and with every
registration succeeding, run mode is requested twice. After the first call the
four channel ports are registered; after the second call, whose mode is again
run mode, none is registered, the four ports have been unregistered and there
is no channel array. -/
theorem ht_sensor_mux_post_cb_run_twice_tears_down :
    ((ht_sensor_mux_set_mode_post_cb "in1" (fresh_state []) 0).ports.registered.map
        (fun p => (p.channel, p.id))) = [(0, 1), (1, 2), (2, 3), (3, 4)] ∧
    (ht_sensor_mux_set_mode_post_cb "in1"
      (ht_sensor_mux_set_mode_post_cb "in1" (fresh_state []) 0) 0).ports.registered = [] ∧
    (ht_sensor_mux_set_mode_post_cb "in1"
      (ht_sensor_mux_set_mode_post_cb "in1" (fresh_state []) 0) 0).ports.unregistered =
        [port_ptr.port 0, port_ptr.port 1, port_ptr.port 2, port_ptr.port 3] ∧
    (ht_sensor_mux_set_mode_post_cb "in1"
      (ht_sensor_mux_set_mode_post_cb "in1" (fresh_state []) 0) 0).callback_data = none := by
  refine ⟨?_, ?_, ?_, ?_⟩ <;> decide

theorem mem_unregister (P : platform) (ptr : port_ptr) (p : legoev3_port) :
    p ∈ (legoev3_port_unregister P ptr).registered ↔
      p ∈ P.registered ∧ ptr ≠ port_ptr.port p.handle := by
  cases ptr with
  | null => simp [legoev3_port_unregister]
  | err e => simp [legoev3_port_unregister]
  | port h =>
    simp only [legoev3_port_unregister, List.mem_filter, bne_iff_ne, ne_eq, port_ptr.port.injEq]
    constructor
    · rintro ⟨h1, h2⟩
      exact ⟨h1, fun h3 => h2 h3.symm⟩
    · rintro ⟨h1, h2⟩
      exact ⟨h1, fun h3 => h2 h3.symm⟩

theorem unregister_up_spec (a : Nat) (st : mux_state) (e0 e1 e2 e3 : ht_smux_input_port_data)
    (harr : st.heap a = some [e0, e1, e2, e3]) :
    unregister_up a NUM_HT_SMUX_CH 0 st =
      { st with
        ports := legoev3_port_unregister (legoev3_port_unregister (legoev3_port_unregister
          (legoev3_port_unregister st.ports e0.port) e1.port) e2.port) e3.port } := by
  simp [unregister_up, NUM_HT_SMUX_CH, load_port, harr]

/-- C13: when a channel array exists (the callback state points to an allocated
array of 4 entries), `ht_sensor_mux_set_mode_post_cb` with a mode other than
run mode and `ht_sensor_mux_remove_cb` do the same: the unregistration calls
they add are exactly `ports[0].port`, ..., `ports[3].port`, one each, none of
those ports stays registered, the callback state is reset to `NULL` and the
array is freed. When there is no channel array both leave the state as it is,
and removing twice is the same as removing once. -/
theorem ht_sensor_mux_teardown (in_port_name : String) (st : mux_state) (mode : Nat)
    (hmode : mode ≠ 0) :
    (∀ a arr, st.callback_data = some a → st.heap a = some arr → arr.length = 4 →
      ht_sensor_mux_set_mode_post_cb in_port_name st mode = ht_sensor_mux_remove_cb st ∧
      (ht_sensor_mux_remove_cb st).ports.unregistered =
        st.ports.unregistered ++ arr.map (fun e => e.port) ∧
      (∀ e ∈ arr, ∀ p ∈ (ht_sensor_mux_remove_cb st).ports.registered,
        e.port ≠ port_ptr.port p.handle) ∧
      (∀ p ∈ (ht_sensor_mux_remove_cb st).ports.registered, p ∈ st.ports.registered) ∧
      (ht_sensor_mux_remove_cb st).ports.register_calls = st.ports.register_calls ∧
      (ht_sensor_mux_remove_cb st).callback_data = none ∧
      (ht_sensor_mux_remove_cb st).heap a = none) ∧
    (st.callback_data = none →
      ht_sensor_mux_set_mode_post_cb in_port_name st mode = st ∧
      ht_sensor_mux_remove_cb st = st) ∧
    ht_sensor_mux_remove_cb (ht_sensor_mux_remove_cb st) = ht_sensor_mux_remove_cb st := by
  refine ⟨?_, ?_, ?_⟩
  · intro a arr hcd harr hlen
    match arr, hlen with
    | [e0, e1, e2, e3], _ =>
      have hpost : ht_sensor_mux_set_mode_post_cb in_port_name st mode =
          ht_sensor_mux_remove_cb st := by
        simp [ht_sensor_mux_set_mode_post_cb, ht_sensor_mux_remove_cb, hmode, hcd]
      have hrem : ht_sensor_mux_remove_cb st =
          { st with
            ports := legoev3_port_unregister (legoev3_port_unregister
              (legoev3_port_unregister (legoev3_port_unregister st.ports e0.port) e1.port)
                e2.port) e3.port
            callback_data := none
            heap := kfree_ports st.heap a } := by
        simp [ht_sensor_mux_remove_cb, hcd, unregister_up_spec a st e0 e1 e2 e3 harr]
      refine ⟨hpost, ?_, ?_, ?_, ?_, ?_, ?_⟩
      · rw [hrem]; simp [legoev3_port_unregister]
      · rw [hrem]
        intro e he p hp
        simp only [mem_unregister] at hp
        obtain ⟨⟨⟨⟨_, n0⟩, n1⟩, n2⟩, n3⟩ := hp
        simp only [List.mem_cons, List.mem_singleton, List.not_mem_nil, or_false] at he
        rcases he with rfl | rfl | rfl | rfl
        · exact n0
        · exact n1
        · exact n2
        · exact n3
      · rw [hrem]
        intro p hp
        simp only [mem_unregister] at hp
        exact hp.1.1.1.1
      · rw [hrem]; simp [legoev3_port_unregister]
      · rw [hrem]
      · rw [hrem]; simp [kfree_ports]
  · intro hcd
    constructor
    · simp [ht_sensor_mux_set_mode_post_cb, hmode, hcd]
    · simp [ht_sensor_mux_remove_cb, hcd]
  · cases hcd : st.callback_data with
    | none =>
      have h1 : ht_sensor_mux_remove_cb st = st := by simp [ht_sensor_mux_remove_cb, hcd]
      rw [h1, h1]
    | some a =>
      have h1 : (ht_sensor_mux_remove_cb st).callback_data = none := by
        simp [ht_sensor_mux_remove_cb, hcd]
      generalize ht_sensor_mux_remove_cb st = st2 at h1
      simp [ht_sensor_mux_remove_cb, h1]

theorem ht_sensor_mux_teardown_witness :
    ((2 : Nat) ≠ 0 ∧
      (ht_sensor_mux_set_mode_post_cb "in1" (fresh_state []) 0).callback_data = some 0 ∧
      (ht_sensor_mux_set_mode_post_cb "in1" (fresh_state []) 0).heap 0 =
        some [⟨port_ptr.port 0, none⟩, ⟨port_ptr.port 1, none⟩, ⟨port_ptr.port 2, none⟩,
          ⟨port_ptr.port 3, none⟩]) ∧
    (ht_sensor_mux_set_mode_post_cb "in1"
        (ht_sensor_mux_set_mode_post_cb "in1" (fresh_state []) 0) 2 =
      ht_sensor_mux_remove_cb (ht_sensor_mux_set_mode_post_cb "in1" (fresh_state []) 0) ∧
    (ht_sensor_mux_remove_cb
        (ht_sensor_mux_set_mode_post_cb "in1" (fresh_state []) 0)).ports.unregistered =
      [port_ptr.port 0, port_ptr.port 1, port_ptr.port 2, port_ptr.port 3]) :=
  ⟨⟨by decide, by decide, by decide⟩,
    ((ht_sensor_mux_teardown "in1" (ht_sensor_mux_set_mode_post_cb "in1" (fresh_state []) 0) 2
      (by decide)).1 0 [⟨port_ptr.port 0, none⟩, ⟨port_ptr.port 1, none⟩, ⟨port_ptr.port 2, none⟩,
        ⟨port_ptr.port 3, none⟩] (by decide) (by decide) (by decide)).1,
    ((ht_sensor_mux_teardown "in1" (ht_sensor_mux_set_mode_post_cb "in1" (fresh_state []) 0) 2
      (by decide)).1 0 [⟨port_ptr.port 0, none⟩, ⟨port_ptr.port 1, none⟩, ⟨port_ptr.port 2, none⟩,
        ⟨port_ptr.port 3, none⟩] (by decide) (by decide) (by decide)).2.1⟩

/-- C17: when a channel array exists (the callback state points to an allocated
array of 4 entries) and `channel` is in 0..3,
`ht_sensor_mux_register_poll_cb` sets the callback of that channel to `cb` and
leaves the callbacks of the other three channels, the ports of all four
channels, the callback state, the platform and every other allocation as they
were. -/
theorem ht_sensor_mux_register_poll_cb_frame (st : mux_state) (a : Nat)
    (arr : List ht_smux_input_port_data) (channel : Nat) (cb : Option Nat)
    (hcd : st.callback_data = some a) (harr : st.heap a = some arr) (hlen : arr.length = 4)
    (hch : channel < 4) :
    ∃ st2, ht_sensor_mux_register_poll_cb st channel cb = some st2 ∧
      load_cb st2.heap a channel = cb ∧
      (∀ i, i < 4 → i ≠ channel → load_cb st2.heap a i = load_cb st.heap a i) ∧
      (∀ i, i < 4 → load_port st2.heap a i = load_port st.heap a i) ∧
      st2.callback_data = st.callback_data ∧
      st2.ports = st.ports ∧
      (∀ b, b ≠ a → st2.heap b = st.heap b) := by
  match arr, hlen with
  | [e0, e1, e2, e3], _ =>
    have hlt : channel < [e0, e1, e2, e3].length := by simpa using hch
    simp only [ht_sensor_mux_register_poll_cb, hcd, harr, if_pos hlt]
    refine ⟨_, rfl, ?_, ?_, ?_, rfl, rfl, ?_⟩
    · interval_cases channel <;> simp [load_cb]
    · intro i hi hne
      interval_cases channel <;> interval_cases i <;> simp_all [load_cb]
    · intro i hi
      interval_cases channel <;> interval_cases i <;> simp [load_port, harr]
    · intro b hb
      simp [hb]

theorem ht_sensor_mux_register_poll_cb_frame_witness :
    ((ht_sensor_mux_set_mode_post_cb "in1" (fresh_state []) 0).callback_data = some 0 ∧
      (ht_sensor_mux_set_mode_post_cb "in1" (fresh_state []) 0).heap 0 =
        some [⟨port_ptr.port 0, none⟩, ⟨port_ptr.port 1, none⟩, ⟨port_ptr.port 2, none⟩,
          ⟨port_ptr.port 3, none⟩] ∧
      [(⟨port_ptr.port 0, none⟩ : ht_smux_input_port_data), ⟨port_ptr.port 1, none⟩,
        ⟨port_ptr.port 2, none⟩, ⟨port_ptr.port 3, none⟩].length = 4 ∧ 2 < 4) ∧
    ∃ st2, ht_sensor_mux_register_poll_cb
        (ht_sensor_mux_set_mode_post_cb "in1" (fresh_state []) 0) 2 (some 7) = some st2 ∧
      load_cb st2.heap 0 2 = some 7 ∧
      (∀ i, i < 4 → i ≠ 2 → load_cb st2.heap 0 i =
        load_cb (ht_sensor_mux_set_mode_post_cb "in1" (fresh_state []) 0).heap 0 i) ∧
      (∀ i, i < 4 → load_port st2.heap 0 i =
        load_port (ht_sensor_mux_set_mode_post_cb "in1" (fresh_state []) 0).heap 0 i) ∧
      st2.callback_data = (ht_sensor_mux_set_mode_post_cb "in1" (fresh_state []) 0).callback_data ∧
      st2.ports = (ht_sensor_mux_set_mode_post_cb "in1" (fresh_state []) 0).ports ∧
      (∀ b, b ≠ 0 → st2.heap b =
        (ht_sensor_mux_set_mode_post_cb "in1" (fresh_state []) 0).heap b) :=
  ⟨⟨by decide, by decide, by decide, by decide⟩,
    ht_sensor_mux_register_poll_cb_frame (ht_sensor_mux_set_mode_post_cb "in1" (fresh_state []) 0)
      0 [⟨port_ptr.port 0, none⟩, ⟨port_ptr.port 1, none⟩, ⟨port_ptr.port 2, none⟩,
        ⟨port_ptr.port 3, none⟩] 2 (some 7) (by decide) (by decide) (by decide) (by decide)⟩

/-! ## Multiplexer poll tick -/

theorem read_block_into_outside {σ : Type} (client : i2c_client σ) (s : σ)
    (command length : Nat) (raw_data : Nat → Nat) (off k : Nat)
    (hk : k < off ∨ off + length ≤ k) :
    (read_block_into client s command length raw_data off).1 k = raw_data k := by
  unfold read_block_into
  by_cases hf : (client.i2c_smbus_read_i2c_block_data s command length).1.1 < 0
  · simp [hf]
  · have hin : ¬ (off ≤ k ∧ k < off + min length
        (client.i2c_smbus_read_i2c_block_data s command length).1.2.length) := by
      intro hx
      have := Nat.min_le_left length
        (client.i2c_smbus_read_i2c_block_data s command length).1.2.length
      omega
    simp [hf, hin]

theorem read_block_into_inside {σ : Type} (client : i2c_client σ) (s : σ)
    (command length : Nat) (raw_data : Nat → Nat) (off k : Nat)
    (hok : 0 ≤ (client.i2c_smbus_read_i2c_block_data s command length).1.1)
    (hlen : (client.i2c_smbus_read_i2c_block_data s command length).1.2.length = length)
    (hk : off ≤ k ∧ k < off + length) :
    (read_block_into client s command length raw_data off).1 k =
      (client.i2c_smbus_read_i2c_block_data s command length).1.2.getD (k - off) 0 := by
  unfold read_block_into
  have hf : ¬ (client.i2c_smbus_read_i2c_block_data s command length).1.1 < 0 := by omega
  simp [hf, hlen, hk]

theorem read_block_into_failed {σ : Type} (client : i2c_client σ) (s : σ)
    (command length : Nat) (raw_data : Nat → Nat) (off : Nat)
    (hf : (client.i2c_smbus_read_i2c_block_data s command length).1.1 < 0) :
    (read_block_into client s command length raw_data off).1 = raw_data := by
  unfold read_block_into
  simp [hf]

theorem read_block_into_state {σ : Type} (client : i2c_client σ) (s : σ)
    (command length : Nat) (raw_data : Nat → Nat) (off : Nat) :
    (read_block_into client s command length raw_data off).2 =
      (client.i2c_smbus_read_i2c_block_data s command length).2 := by
  unfold read_block_into
  by_cases hf : (client.i2c_smbus_read_i2c_block_data s command length).1.1 < 0 <;> simp [hf]

theorem read_block_into_traced {σ : Type} (client : i2c_client σ) (s : σ)
    (l : List bus_transfer) (command length : Nat) (raw_data : Nat → Nat) (off : Nat) :
    read_block_into (traced client) (s, l) command length raw_data off =
      ((read_block_into client s command length raw_data off).1,
        ((read_block_into client s command length raw_data off).2,
          l ++ [bus_transfer.read_i2c_block_data command length])) := by
  unfold read_block_into
  by_cases hf : (client.i2c_smbus_read_i2c_block_data s command length).1.1 < 0 <;>
    simp [traced, hf]

theorem fan_out_keeps_log {σ τ : Type} (inv : Nat → port_ptr → σ → σ)
    (heap : Nat → Option (List ht_smux_input_port_data)) (a : Nat) :
    ∀ (n i : Nat) (s : σ × τ),
      (fan_out (fun cb p (x : σ × τ) => (inv cb p x.1, x.2)) heap a n i s).2 = s.2 := by
  intro n
  induction n with
  | zero => intro i s; rfl
  | succ n ih =>
    intro i s
    unfold fan_out
    cases load_cb heap a i with
    | none => exact ih _ _
    | some cb =>
      by_cases hp : load_port heap a i ≠ port_ptr.null
      · simp only [if_pos hp]
        rw [ih]
      · simp only [if_neg hp]
        exact ih _ _

theorem poll_cb_buffer {σ : Type} (h : ht_smux_poll_h) (client : i2c_client σ)
    (invoke : Nat → port_ptr → σ → σ) (s : σ) (st : mux_state) (raw_data : Nat → Nat) :
    (ht_sensor_mux_poll_cb h client invoke s st raw_data).1 =
      (ht_sensor_mux_poll_reads h client s raw_data).1 := by
  unfold ht_sensor_mux_poll_cb
  cases st.callback_data <;> rfl

theorem poll_cb_log {σ : Type} (h : ht_smux_poll_h) (client : i2c_client σ)
    (inv : Nat → port_ptr → σ → σ) (s : σ × List bus_transfer) (st : mux_state)
    (raw_data : Nat → Nat) :
    (ht_sensor_mux_poll_cb h (traced client)
      (fun cb p (x : σ × List bus_transfer) => (inv cb p x.1, x.2)) s st raw_data).2.2 =
      (ht_sensor_mux_poll_reads h (traced client) s raw_data).2.2 := by
  unfold ht_sensor_mux_poll_cb
  cases st.callback_data with
  | none => rfl
  | some a => exact fan_out_keeps_log inv st.heap a _ _ _

/-- C14: one `ht_sensor_mux_poll_cb` tick whose first block read succeeds and
delivers 32 bytes `b` (the configuration registers lying inside that block).
The block reads it issues are, in this order and each of 32 bytes: one from the
command register; one from the channel-1 I2C data register exactly when the
channel-1 or channel-2 configuration byte of `b` has the I2C flag; one from the
channel-3 I2C data register exactly when the channel-3 or channel-4
configuration byte of `b` has the flag. The first read lands in buffer bytes
[0,32), the second in [32,64), the third in [64,96); a range whose read is not
issued, and everything from byte 96 on, is left as it was. -/
theorem ht_sensor_mux_poll_cb_reads {σ : Type} (h : ht_smux_poll_h) (client : i2c_client σ)
    (inv : Nat → port_ptr → σ → σ) (s : σ) (st : mux_state) (raw_data : Nat → Nat)
    (n : Int) (b : List Nat) (s1 : σ)
    (hc1 : h.HT_SMUX_COMMAND_REG ≤ h.HT_SMUX_CH1_CONFIG_REG ∧
      h.HT_SMUX_CH1_CONFIG_REG < h.HT_SMUX_COMMAND_REG + 32)
    (hc2 : h.HT_SMUX_COMMAND_REG ≤ h.HT_SMUX_CH2_CONFIG_REG ∧
      h.HT_SMUX_CH2_CONFIG_REG < h.HT_SMUX_COMMAND_REG + 32)
    (hc3 : h.HT_SMUX_COMMAND_REG ≤ h.HT_SMUX_CH3_CONFIG_REG ∧
      h.HT_SMUX_CH3_CONFIG_REG < h.HT_SMUX_COMMAND_REG + 32)
    (hc4 : h.HT_SMUX_COMMAND_REG ≤ h.HT_SMUX_CH4_CONFIG_REG ∧
      h.HT_SMUX_CH4_CONFIG_REG < h.HT_SMUX_COMMAND_REG + 32)
    (hr : client.i2c_smbus_read_i2c_block_data s h.HT_SMUX_COMMAND_REG 32 = ((n, b), s1))
    (hn : 0 ≤ n) (hb : b.length = 32) :
    (ht_sensor_mux_poll_cb h (traced client)
        (fun cb p (x : σ × List bus_transfer) => (inv cb p x.1, x.2)) (s, []) st raw_data).2.2 =
      [bus_transfer.read_i2c_block_data h.HT_SMUX_COMMAND_REG 32] ++
      (if config_has_i2c h b h.HT_SMUX_CH1_CONFIG_REG h.HT_SMUX_CH2_CONFIG_REG then
        [bus_transfer.read_i2c_block_data h.HT_SMUX_CH1_I2C_DATA_REG 32] else []) ++
      (if config_has_i2c h b h.HT_SMUX_CH3_CONFIG_REG h.HT_SMUX_CH4_CONFIG_REG then
        [bus_transfer.read_i2c_block_data h.HT_SMUX_CH3_I2C_DATA_REG 32] else []) ∧
    (∀ k, k < 32 → (ht_sensor_mux_poll_cb h client inv s st raw_data).1 k = b.getD k 0) ∧
    (∀ k, 96 ≤ k → (ht_sensor_mux_poll_cb h client inv s st raw_data).1 k = raw_data k) ∧
    (config_has_i2c h b h.HT_SMUX_CH1_CONFIG_REG h.HT_SMUX_CH2_CONFIG_REG = false →
      ∀ k, 32 ≤ k → k < 64 →
        (ht_sensor_mux_poll_cb h client inv s st raw_data).1 k = raw_data k) ∧
    (config_has_i2c h b h.HT_SMUX_CH3_CONFIG_REG h.HT_SMUX_CH4_CONFIG_REG = false →
      ∀ k, 64 ≤ k → k < 96 →
        (ht_sensor_mux_poll_cb h client inv s st raw_data).1 k = raw_data k) ∧
    (config_has_i2c h b h.HT_SMUX_CH1_CONFIG_REG h.HT_SMUX_CH2_CONFIG_REG = true →
      ∀ n2 b2 s2,
        client.i2c_smbus_read_i2c_block_data s1 h.HT_SMUX_CH1_I2C_DATA_REG 32 = ((n2, b2), s2) →
        0 ≤ n2 → b2.length = 32 →
        ∀ k, 32 ≤ k → k < 64 →
          (ht_sensor_mux_poll_cb h client inv s st raw_data).1 k = b2.getD (k - 32) 0) ∧
    (config_has_i2c h b h.HT_SMUX_CH3_CONFIG_REG h.HT_SMUX_CH4_CONFIG_REG = true →
      ∀ n3 b3 s3,
        client.i2c_smbus_read_i2c_block_data
          (if config_has_i2c h b h.HT_SMUX_CH1_CONFIG_REG h.HT_SMUX_CH2_CONFIG_REG then
            (client.i2c_smbus_read_i2c_block_data s1 h.HT_SMUX_CH1_I2C_DATA_REG 32).2 else s1)
          h.HT_SMUX_CH3_I2C_DATA_REG 32 = ((n3, b3), s3) →
        0 ≤ n3 → b3.length = 32 →
        ∀ k, 64 ≤ k → k < 96 →
          (ht_sensor_mux_poll_cb h client inv s st raw_data).1 k = b3.getD (k - 64) 0) := by
  have hok : 0 ≤ (client.i2c_smbus_read_i2c_block_data s h.HT_SMUX_COMMAND_REG 32).1.1 := by
    rw [hr]; exact hn
  have hlen : (client.i2c_smbus_read_i2c_block_data s h.HT_SMUX_COMMAND_REG 32).1.2.length =
      32 := by rw [hr]; exact hb
  have hfresh : ∀ k, k < 32 →
      (read_block_into client s h.HT_SMUX_COMMAND_REG 32 raw_data 0).1 k = b.getD k 0 := by
    intro k hk
    have := read_block_into_inside client s h.HT_SMUX_COMMAND_REG 32 raw_data 0 k hok hlen
      ⟨Nat.zero_le _, by omega⟩
    rw [this, hr]
    simp
  have hs1 : (read_block_into client s h.HT_SMUX_COMMAND_REG 32 raw_data 0).2 = s1 := by
    rw [read_block_into_state, hr]
  have hrest : ∀ k, 32 ≤ k →
      (read_block_into client s h.HT_SMUX_COMMAND_REG 32 raw_data 0).1 k = raw_data k := by
    intro k hk
    exact read_block_into_outside client s _ 32 raw_data 0 k (Or.inr (by omega))
  generalize hR1 : read_block_into client s h.HT_SMUX_COMMAND_REG 32 raw_data 0 = R1
    at hfresh hs1 hrest
  -- the first test
  have ht1 : (R1.1 (h.HT_SMUX_CH1_CONFIG_REG - h.HT_SMUX_COMMAND_REG) &&&
        h.HT_SMUX_CONFIG_I2C ≠ 0 ∨
      R1.1 (h.HT_SMUX_CH2_CONFIG_REG - h.HT_SMUX_COMMAND_REG) &&&
        h.HT_SMUX_CONFIG_I2C ≠ 0) ↔
      config_has_i2c h b h.HT_SMUX_CH1_CONFIG_REG h.HT_SMUX_CH2_CONFIG_REG = true := by
    rw [hfresh _ (by omega), hfresh _ (by omega)]
    simp [config_has_i2c]
  rw [poll_cb_log, poll_cb_buffer]
  unfold ht_sensor_mux_poll_reads
  simp only [read_block_into_traced, hR1]
  by_cases c12 : config_has_i2c h b h.HT_SMUX_CH1_CONFIG_REG h.HT_SMUX_CH2_CONFIG_REG = true
  · have t1 := ht1.mpr c12
    simp only [if_pos t1, c12, if_true]
    generalize hR2 : read_block_into client R1.2 h.HT_SMUX_CH1_I2C_DATA_REG 32 R1.1 32 = R2
    have hR2low : ∀ k, k < 32 → R2.1 k = b.getD k 0 := by
      intro k hk
      rw [← hR2, read_block_into_outside client R1.2 _ 32 R1.1 32 k (Or.inl hk)]
      exact hfresh k hk
    have hR2high : ∀ k, 64 ≤ k → R2.1 k = raw_data k := by
      intro k hk
      rw [← hR2, read_block_into_outside client R1.2 _ 32 R1.1 32 k (Or.inr (by omega))]
      exact hrest k (by omega)
    have hR2s : R2.2 = (client.i2c_smbus_read_i2c_block_data s1
        h.HT_SMUX_CH1_I2C_DATA_REG 32).2 := by
      rw [← hR2, read_block_into_state, hs1]
    have ht2 : (R2.1 (h.HT_SMUX_CH3_CONFIG_REG - h.HT_SMUX_COMMAND_REG) &&&
          h.HT_SMUX_CONFIG_I2C ≠ 0 ∨
        R2.1 (h.HT_SMUX_CH4_CONFIG_REG - h.HT_SMUX_COMMAND_REG) &&&
          h.HT_SMUX_CONFIG_I2C ≠ 0) ↔
        config_has_i2c h b h.HT_SMUX_CH3_CONFIG_REG h.HT_SMUX_CH4_CONFIG_REG = true := by
      rw [hR2low _ (by omega), hR2low _ (by omega)]
      simp [config_has_i2c]
    have hmid : ∀ n2 b2 s2,
        client.i2c_smbus_read_i2c_block_data s1 h.HT_SMUX_CH1_I2C_DATA_REG 32 = ((n2, b2), s2) →
        0 ≤ n2 → b2.length = 32 → ∀ k, 32 ≤ k → k < 64 → R2.1 k = b2.getD (k - 32) 0 := by
      intro n2 b2 s2 hr2 hn2 hb2 k hk1 hk2
      rw [← hR2, hs1]
      have := read_block_into_inside client s1 h.HT_SMUX_CH1_I2C_DATA_REG 32 R1.1 32 k
        (by rw [hr2]; exact hn2) (by rw [hr2]; exact hb2) ⟨hk1, by omega⟩
      rw [this, hr2]
    by_cases c34 : config_has_i2c h b h.HT_SMUX_CH3_CONFIG_REG h.HT_SMUX_CH4_CONFIG_REG = true
    · have t2 := ht2.mpr c34
      simp only [if_pos t2, c34, if_true]
      refine ⟨by simp [read_block_into_traced], ?_, ?_, ?_, ?_, ?_, ?_⟩
      · intro k hk
        rw [read_block_into_outside client R2.2 _ 32 R2.1 64 k (Or.inl (by omega))]
        exact hR2low k hk
      · intro k hk
        rw [read_block_into_outside client R2.2 _ 32 R2.1 64 k (Or.inr (by omega))]
        exact hR2high k (by omega)
      · intro hf; exact absurd hf (by simp)
      · intro hf; exact absurd hf (by simp)
      · intro _ n2 b2 s2 hr2 hn2 hb2 k hk1 hk2
        rw [read_block_into_outside client R2.2 _ 32 R2.1 64 k (Or.inl (by omega))]
        exact hmid n2 b2 s2 hr2 hn2 hb2 k hk1 hk2
      · intro _ n3 b3 s3 hr3 hn3 hb3 k hk1 hk2
        rw [hR2s]
        have := read_block_into_inside client
          (client.i2c_smbus_read_i2c_block_data s1 h.HT_SMUX_CH1_I2C_DATA_REG 32).2
          h.HT_SMUX_CH3_I2C_DATA_REG 32 R2.1 64 k
          (by rw [hr3]; exact hn3) (by rw [hr3]; exact hb3) ⟨hk1, by omega⟩
        rw [this, hr3]
    · have t2 := fun hx => c34 (ht2.mp hx)
      have c34f : config_has_i2c h b h.HT_SMUX_CH3_CONFIG_REG h.HT_SMUX_CH4_CONFIG_REG =
          false := by simpa using c34
      simp only [if_neg t2, c34f, c12]
      refine ⟨by simp [read_block_into_traced], ?_, ?_, ?_, ?_, ?_, ?_⟩
      · exact hR2low
      · intro k hk; exact hR2high k (by omega)
      · intro hf; exact absurd hf (by simp)
      · intro _ k hk1 _; exact hR2high k hk1
      · intro _; exact hmid
      · intro hf; exact absurd hf (by simp)
  · have t1 := fun hx => c12 (ht1.mp hx)
    have c12f : config_has_i2c h b h.HT_SMUX_CH1_CONFIG_REG h.HT_SMUX_CH2_CONFIG_REG =
        false := by simpa using c12
    simp only [if_neg t1, c12f]
    have ht2 : (R1.1 (h.HT_SMUX_CH3_CONFIG_REG - h.HT_SMUX_COMMAND_REG) &&&
          h.HT_SMUX_CONFIG_I2C ≠ 0 ∨
        R1.1 (h.HT_SMUX_CH4_CONFIG_REG - h.HT_SMUX_COMMAND_REG) &&&
          h.HT_SMUX_CONFIG_I2C ≠ 0) ↔
        config_has_i2c h b h.HT_SMUX_CH3_CONFIG_REG h.HT_SMUX_CH4_CONFIG_REG = true := by
      rw [hfresh _ (by omega), hfresh _ (by omega)]
      simp [config_has_i2c]
    by_cases c34 : config_has_i2c h b h.HT_SMUX_CH3_CONFIG_REG h.HT_SMUX_CH4_CONFIG_REG = true
    · have t2 := ht2.mpr c34
      simp only [if_pos t2, c34, if_true]
      refine ⟨by simp [read_block_into_traced], ?_, ?_, ?_, ?_, ?_, ?_⟩
      · intro k hk
        rw [read_block_into_outside client R1.2 _ 32 R1.1 64 k (Or.inl (by omega))]
        exact hfresh k hk
      · intro k hk
        rw [read_block_into_outside client R1.2 _ 32 R1.1 64 k (Or.inr (by omega))]
        exact hrest k (by omega)
      · intro _ k hk1 hk2
        rw [read_block_into_outside client R1.2 _ 32 R1.1 64 k (Or.inl (by omega))]
        exact hrest k hk1
      · intro hf; exact absurd hf (by simp)
      · intro hf; exact absurd hf (by simp)
      · intro _ n3 b3 s3 hr3 hn3 hb3 k hk1 hk2
        rw [hs1]
        simp only [Bool.false_eq_true, if_false] at hr3
        have := read_block_into_inside client s1 h.HT_SMUX_CH3_I2C_DATA_REG 32 R1.1 64 k
          (by rw [hr3]; exact hn3) (by rw [hr3]; exact hb3) ⟨hk1, by omega⟩
        rw [this, hr3]
    · have t2 := fun hx => c34 (ht2.mp hx)
      have c34f : config_has_i2c h b h.HT_SMUX_CH3_CONFIG_REG h.HT_SMUX_CH4_CONFIG_REG =
          false := by simpa using c34
      simp only [if_neg t2, c34f]
      refine ⟨by simp [read_block_into_traced], ?_, ?_, ?_, ?_, ?_, ?_⟩
      · exact hfresh
      · intro k hk; exact hrest k (by omega)
      · intro _ k hk1 _; exact hrest k hk1
      · intro _ k hk1 _; exact hrest k (by omega)
      · intro hf; exact absurd hf (by simp)
      · intro hf; exact absurd hf (by simp)

theorem ht_sensor_mux_poll_cb_reads_witness :
    ((ht_smux_layout.HT_SMUX_COMMAND_REG ≤ ht_smux_layout.HT_SMUX_CH1_CONFIG_REG ∧
        ht_smux_layout.HT_SMUX_CH1_CONFIG_REG < ht_smux_layout.HT_SMUX_COMMAND_REG + 32) ∧
      (ht_smux_layout.HT_SMUX_COMMAND_REG ≤ ht_smux_layout.HT_SMUX_CH2_CONFIG_REG ∧
        ht_smux_layout.HT_SMUX_CH2_CONFIG_REG < ht_smux_layout.HT_SMUX_COMMAND_REG + 32) ∧
      (ht_smux_layout.HT_SMUX_COMMAND_REG ≤ ht_smux_layout.HT_SMUX_CH3_CONFIG_REG ∧
        ht_smux_layout.HT_SMUX_CH3_CONFIG_REG < ht_smux_layout.HT_SMUX_COMMAND_REG + 32) ∧
      (ht_smux_layout.HT_SMUX_COMMAND_REG ≤ ht_smux_layout.HT_SMUX_CH4_CONFIG_REG ∧
        ht_smux_layout.HT_SMUX_CH4_CONFIG_REG < ht_smux_layout.HT_SMUX_COMMAND_REG + 32) ∧
      byte_file.i2c_smbus_read_i2c_block_data (fun a => if a = 0x22 then 1 else 0)
          ht_smux_layout.HT_SMUX_COMMAND_REG 32 =
        (((32 : Int), (List.range 32).map (fun k => (if 0x20 + k = 0x22 then 1 else 0) % 256)),
          fun a => if a = 0x22 then 1 else 0) ∧
      (0 : Int) ≤ 32 ∧
      ((List.range 32).map (fun k => (if 0x20 + k = 0x22 then 1 else 0) % 256)).length = 32) ∧
    (ht_sensor_mux_poll_cb ht_smux_layout (traced byte_file)
        (fun _ _ (x : (Nat → Nat) × List bus_transfer) => (x.1, x.2))
        (fun a => if a = 0x22 then 1 else 0, []) (fresh_state []) (fun _ => 0)).2.2 =
      [bus_transfer.read_i2c_block_data 0x20 32, bus_transfer.read_i2c_block_data 0x40 32] :=
  ⟨⟨by decide, by decide, by decide, by decide, rfl, by decide, by decide⟩,
    (ht_sensor_mux_poll_cb_reads ht_smux_layout byte_file (fun _ _ x => x)
      (fun a => if a = 0x22 then 1 else 0) (fresh_state []) (fun _ => 0) 32
      ((List.range 32).map (fun k => (if 0x20 + k = 0x22 then 1 else 0) % 256))
      (fun a => if a = 0x22 then 1 else 0)
      (by decide) (by decide) (by decide) (by decide) rfl (by decide) (by decide)).1⟩

theorem fan_out_eq_foldl {σ : Type} (invoke : Nat → port_ptr → σ → σ)
    (heap : Nat → Option (List ht_smux_input_port_data)) (a : Nat) :
    ∀ (n i : Nat) (s : σ),
      fan_out invoke heap a n i s =
        ((List.range' i n).filter (fun j =>
          (load_cb heap a j).isSome && decide (load_port heap a j ≠ port_ptr.null))).foldl
          (fun x j => invoke ((load_cb heap a j).getD 0) (load_port heap a j) x) s := by
  intro n
  induction n with
  | zero => intro i s; rfl
  | succ n ih =>
    intro i s
    unfold fan_out
    rw [List.range'_succ]
    cases hcb : load_cb heap a i with
    | none => simp [List.filter_cons, hcb, ih]
    | some cb =>
      by_cases hp : load_port heap a i ≠ port_ptr.null
      · simp [List.filter_cons, hcb, hp, ih]
      · simp [List.filter_cons, hcb, hp, ih]

theorem read_block_into_with_calls {σ : Type} (client : i2c_client σ) (s : σ)
    (l : List (Nat × port_ptr)) (command length : Nat) (raw_data : Nat → Nat) (off : Nat) :
    read_block_into (with_calls client) (s, l) command length raw_data off =
      ((read_block_into client s command length raw_data off).1,
        ((read_block_into client s command length raw_data off).2, l)) := by
  unfold read_block_into
  by_cases hf : (client.i2c_smbus_read_i2c_block_data s command length).1.1 < 0 <;>
    simp [with_calls, hf]

theorem poll_reads_with_calls {σ : Type} (h : ht_smux_poll_h) (client : i2c_client σ) (s : σ)
    (l : List (Nat × port_ptr)) (raw_data : Nat → Nat) :
    (ht_sensor_mux_poll_reads h (with_calls client) (s, l) raw_data).2.2 = l := by
  unfold ht_sensor_mux_poll_reads
  simp only [read_block_into_with_calls]
  split_ifs <;> simp [read_block_into_with_calls]

theorem foldl_record_call {σ : Type} (f : Nat → Nat) (g : Nat → port_ptr) :
    ∀ (L : List Nat) (s : σ × List (Nat × port_ptr)),
      (L.foldl (fun x j => record_call (f j) (g j) x) s).2 =
        s.2 ++ L.map (fun j => (f j, g j)) := by
  intro L
  induction L with
  | nil => intro s; simp
  | cons j L ih =>
    intro s
    rw [List.foldl_cons, ih]
    simp [record_call]

theorem poll_cb_calls {σ : Type} (h : ht_smux_poll_h) (client : i2c_client σ) (s : σ)
    (st : mux_state) (raw_data : Nat → Nat) (a : Nat) (hcd : st.callback_data = some a) :
    (ht_sensor_mux_poll_cb h (with_calls client) record_call (s, []) st raw_data).2.2 =
      ((List.range 4).filter (fun i =>
        (load_cb st.heap a i).isSome && decide (load_port st.heap a i ≠ port_ptr.null))).map
        (fun i => ((load_cb st.heap a i).getD 0, load_port st.heap a i)) := by
  unfold ht_sensor_mux_poll_cb
  simp only [hcd]
  rw [fan_out_eq_foldl, foldl_record_call, poll_reads_with_calls, List.range_eq_range']
  simp [NUM_HT_SMUX_CH]

/-- C20: in one `ht_sensor_mux_poll_cb` tick on an instance with a channel array
(an allocated array of 4 entries), the callbacks act on the state the block
reads leave, one invocation `ports[i].cb(ports[i].port)` for each `i` in 0..3
whose `ports[i].cb` and `ports[i].port` are both non-`NULL`, in ascending order
of `i`, and none else; recorded, the invocations are that list. With no channel
array no callback is invoked. The buffer is the one the block reads leave. -/
theorem ht_sensor_mux_poll_cb_fan_out {σ : Type} (h : ht_smux_poll_h) (client : i2c_client σ)
    (invoke : Nat → port_ptr → σ → σ) (s : σ) (st : mux_state) (raw_data : Nat → Nat) :
    (∀ a arr, st.callback_data = some a → st.heap a = some arr → arr.length = 4 →
      (ht_sensor_mux_poll_cb h client invoke s st raw_data).2 =
        ((List.range 4).filter (fun i =>
          (load_cb st.heap a i).isSome && decide (load_port st.heap a i ≠ port_ptr.null))).foldl
          (fun x i => invoke ((load_cb st.heap a i).getD 0) (load_port st.heap a i) x)
          (ht_sensor_mux_poll_reads h client s raw_data).2 ∧
      (ht_sensor_mux_poll_cb h (with_calls client) record_call (s, []) st raw_data).2.2 =
        ((List.range 4).filter (fun i =>
          (load_cb st.heap a i).isSome && decide (load_port st.heap a i ≠ port_ptr.null))).map
          (fun i => ((load_cb st.heap a i).getD 0, load_port st.heap a i))) ∧
    (st.callback_data = none →
      (ht_sensor_mux_poll_cb h client invoke s st raw_data).2 =
        (ht_sensor_mux_poll_reads h client s raw_data).2 ∧
      (ht_sensor_mux_poll_cb h (with_calls client) record_call (s, []) st raw_data).2.2 = []) ∧
    (ht_sensor_mux_poll_cb h client invoke s st raw_data).1 =
      (ht_sensor_mux_poll_reads h client s raw_data).1 := by
  refine ⟨?_, ?_, poll_cb_buffer h client invoke s st raw_data⟩
  · intro a arr hcd _ _
    refine ⟨?_, poll_cb_calls h client s st raw_data a hcd⟩
    unfold ht_sensor_mux_poll_cb
    simp only [hcd]
    rw [fan_out_eq_foldl, List.range_eq_range']
    simp [NUM_HT_SMUX_CH]
  · intro hcd
    constructor
    · unfold ht_sensor_mux_poll_cb
      simp only [hcd]
    · unfold ht_sensor_mux_poll_cb
      simp only [hcd]
      exact poll_reads_with_calls h client s [] raw_data

theorem poll_reads_log {σ : Type} (h : ht_smux_poll_h) (client : i2c_client σ) (s : σ)
    (raw_data : Nat → Nat)
    (hc3 : h.HT_SMUX_CH3_CONFIG_REG - h.HT_SMUX_COMMAND_REG < 32)
    (hc4 : h.HT_SMUX_CH4_CONFIG_REG - h.HT_SMUX_COMMAND_REG < 32) :
    (ht_sensor_mux_poll_reads h (traced client) (s, []) raw_data).2.2 =
      [bus_transfer.read_i2c_block_data h.HT_SMUX_COMMAND_REG 32] ++
      (if (read_block_into client s h.HT_SMUX_COMMAND_REG 32 raw_data 0).1
            (h.HT_SMUX_CH1_CONFIG_REG - h.HT_SMUX_COMMAND_REG) &&& h.HT_SMUX_CONFIG_I2C ≠ 0 ∨
          (read_block_into client s h.HT_SMUX_COMMAND_REG 32 raw_data 0).1
            (h.HT_SMUX_CH2_CONFIG_REG - h.HT_SMUX_COMMAND_REG) &&& h.HT_SMUX_CONFIG_I2C ≠ 0 then
        [bus_transfer.read_i2c_block_data h.HT_SMUX_CH1_I2C_DATA_REG 32] else []) ++
      (if (read_block_into client s h.HT_SMUX_COMMAND_REG 32 raw_data 0).1
            (h.HT_SMUX_CH3_CONFIG_REG - h.HT_SMUX_COMMAND_REG) &&& h.HT_SMUX_CONFIG_I2C ≠ 0 ∨
          (read_block_into client s h.HT_SMUX_COMMAND_REG 32 raw_data 0).1
            (h.HT_SMUX_CH4_CONFIG_REG - h.HT_SMUX_COMMAND_REG) &&& h.HT_SMUX_CONFIG_I2C ≠ 0 then
        [bus_transfer.read_i2c_block_data h.HT_SMUX_CH3_I2C_DATA_REG 32] else []) := by
  unfold ht_sensor_mux_poll_reads
  simp only [read_block_into_traced]
  generalize read_block_into client s h.HT_SMUX_COMMAND_REG 32 raw_data 0 = R1
  have e3 := read_block_into_outside client R1.2 h.HT_SMUX_CH1_I2C_DATA_REG 32 R1.1 32 _
    (Or.inl hc3)
  have e4 := read_block_into_outside client R1.2 h.HT_SMUX_CH1_I2C_DATA_REG 32 R1.1 32 _
    (Or.inl hc4)
  by_cases t1 : R1.1 (h.HT_SMUX_CH1_CONFIG_REG - h.HT_SMUX_COMMAND_REG) &&&
      h.HT_SMUX_CONFIG_I2C ≠ 0 ∨
    R1.1 (h.HT_SMUX_CH2_CONFIG_REG - h.HT_SMUX_COMMAND_REG) &&& h.HT_SMUX_CONFIG_I2C ≠ 0
  · simp only [if_pos t1, e3, e4]
    split_ifs <;> simp [read_block_into_traced]
  · simp only [if_neg t1]
    split_ifs <;> simp [read_block_into_traced]

theorem poll_reads_low {σ : Type} (h : ht_smux_poll_h) (client : i2c_client σ) (s : σ)
    (raw_data : Nat → Nat) (k : Nat) (hk : k < 32) :
    (ht_sensor_mux_poll_reads h client s raw_data).1 k =
      (read_block_into client s h.HT_SMUX_COMMAND_REG 32 raw_data 0).1 k := by
  unfold ht_sensor_mux_poll_reads
  simp only
  split_ifs <;>
    simp only [read_block_into_outside _ _ _ 32 _ 64 k (Or.inl (by omega)),
      read_block_into_outside _ _ _ 32 _ 32 k (Or.inl hk)]

theorem poll_reads_high {σ : Type} (h : ht_smux_poll_h) (client : i2c_client σ) (s : σ)
    (raw_data : Nat → Nat) (k : Nat) (hk : 96 ≤ k) :
    (ht_sensor_mux_poll_reads h client s raw_data).1 k = raw_data k := by
  unfold ht_sensor_mux_poll_reads
  simp only
  split_ifs <;>
    simp only [read_block_into_outside _ _ _ 32 _ 64 k (Or.inr (by omega)),
      read_block_into_outside _ _ _ 32 _ 32 k (Or.inr (by omega)),
      read_block_into_outside _ _ _ 32 _ 0 k (Or.inr (by omega))]

/-- C15 as stated fails: on a bus whose block read at the command register
fails, with a buffer whose channel-1 configuration byte (left by an earlier
tick) has the I2C flag and an instance with a callback on channel 0, the tick
goes on to read the channel-1 I2C data register, invokes the callback, and
byte 32 of the buffer changes from 0 to 7. -/
theorem ht_sensor_mux_poll_cb_failed_read_goes_on :
    ((flaky_file 0x20).i2c_smbus_read_i2c_block_data (fun a => if a = 0x40 then 7 else 0)
        ht_smux_layout.HT_SMUX_COMMAND_REG 32).1.1 < 0 ∧
    (ht_sensor_mux_poll_cb ht_smux_layout (with_calls (traced (flaky_file 0x20))) record_call
        ((fun a => if a = 0x40 then 7 else 0, []), []) polled_state
        (fun k => if k = 2 then 1 else 0)).2.1.2 =
      [bus_transfer.read_i2c_block_data 0x20 32, bus_transfer.read_i2c_block_data 0x40 32] ∧
    (ht_sensor_mux_poll_cb ht_smux_layout (with_calls (traced (flaky_file 0x20))) record_call
        ((fun a => if a = 0x40 then 7 else 0, []), []) polled_state
        (fun k => if k = 2 then 1 else 0)).2.2 = [(7, port_ptr.port 0)] ∧
    (ht_sensor_mux_poll_cb ht_smux_layout (with_calls (traced (flaky_file 0x20))) record_call
        ((fun a => if a = 0x40 then 7 else 0, []), []) polled_state
        (fun k => if k = 2 then 1 else 0)).1 32 = 7 ∧
    (fun k => if k = 2 then 1 else 0 : Nat → Nat) 32 = 0 := by
  refine ⟨?_, ?_, ?_, ?_, ?_⟩ <;> decide

/-- C15 as amended: when the first block read of `ht_sensor_mux_poll_cb` fails
(the configuration registers lying inside the first block), bytes [0,32) of
the buffer and everything from byte 96 on stay as the previous tick left them,
but the tick is not aborted: the two follow-up reads are issued according to
the configuration bytes already in the buffer, and the callbacks of the
channels that have a callback and a port are invoked in ascending order. -/
theorem ht_sensor_mux_poll_cb_first_read_fails {σ : Type} (h : ht_smux_poll_h)
    (client : i2c_client σ) (inv : Nat → port_ptr → σ → σ) (s : σ) (st : mux_state)
    (raw_data : Nat → Nat)
    (hc1 : h.HT_SMUX_COMMAND_REG ≤ h.HT_SMUX_CH1_CONFIG_REG ∧
      h.HT_SMUX_CH1_CONFIG_REG < h.HT_SMUX_COMMAND_REG + 32)
    (hc2 : h.HT_SMUX_COMMAND_REG ≤ h.HT_SMUX_CH2_CONFIG_REG ∧
      h.HT_SMUX_CH2_CONFIG_REG < h.HT_SMUX_COMMAND_REG + 32)
    (hc3 : h.HT_SMUX_COMMAND_REG ≤ h.HT_SMUX_CH3_CONFIG_REG ∧
      h.HT_SMUX_CH3_CONFIG_REG < h.HT_SMUX_COMMAND_REG + 32)
    (hc4 : h.HT_SMUX_COMMAND_REG ≤ h.HT_SMUX_CH4_CONFIG_REG ∧
      h.HT_SMUX_CH4_CONFIG_REG < h.HT_SMUX_COMMAND_REG + 32)
    (hf : (client.i2c_smbus_read_i2c_block_data s h.HT_SMUX_COMMAND_REG 32).1.1 < 0) :
    (ht_sensor_mux_poll_cb h (traced client)
        (fun cb p (x : σ × List bus_transfer) => (inv cb p x.1, x.2)) (s, []) st raw_data).2.2 =
      [bus_transfer.read_i2c_block_data h.HT_SMUX_COMMAND_REG 32] ++
      (if raw_data (h.HT_SMUX_CH1_CONFIG_REG - h.HT_SMUX_COMMAND_REG) &&&
            h.HT_SMUX_CONFIG_I2C ≠ 0 ∨
          raw_data (h.HT_SMUX_CH2_CONFIG_REG - h.HT_SMUX_COMMAND_REG) &&&
            h.HT_SMUX_CONFIG_I2C ≠ 0 then
        [bus_transfer.read_i2c_block_data h.HT_SMUX_CH1_I2C_DATA_REG 32] else []) ++
      (if raw_data (h.HT_SMUX_CH3_CONFIG_REG - h.HT_SMUX_COMMAND_REG) &&&
            h.HT_SMUX_CONFIG_I2C ≠ 0 ∨
          raw_data (h.HT_SMUX_CH4_CONFIG_REG - h.HT_SMUX_COMMAND_REG) &&&
            h.HT_SMUX_CONFIG_I2C ≠ 0 then
        [bus_transfer.read_i2c_block_data h.HT_SMUX_CH3_I2C_DATA_REG 32] else []) ∧
    (∀ k, k < 32 → (ht_sensor_mux_poll_cb h client inv s st raw_data).1 k = raw_data k) ∧
    (∀ k, 96 ≤ k → (ht_sensor_mux_poll_cb h client inv s st raw_data).1 k = raw_data k) ∧
    (∀ a, st.callback_data = some a →
      (ht_sensor_mux_poll_cb h (with_calls client) record_call (s, []) st raw_data).2.2 =
        ((List.range 4).filter (fun i =>
          (load_cb st.heap a i).isSome && decide (load_port st.heap a i ≠ port_ptr.null))).map
          (fun i => ((load_cb st.heap a i).getD 0, load_port st.heap a i))) := by
  have hR := read_block_into_failed client s h.HT_SMUX_COMMAND_REG 32 raw_data 0 hf
  have _ := hc1
  have _ := hc2
  refine ⟨?_, ?_, ?_, ?_⟩
  · rw [poll_cb_log, poll_reads_log h client s raw_data (by omega) (by omega), hR]
  · intro k hk
    rw [poll_cb_buffer, poll_reads_low h client s raw_data k hk, hR]
  · intro k hk
    rw [poll_cb_buffer, poll_reads_high h client s raw_data k hk]
  · intro a hcd
    exact poll_cb_calls h client s st raw_data a hcd

theorem ht_sensor_mux_poll_cb_first_read_fails_witness :
    ((ht_smux_layout.HT_SMUX_COMMAND_REG ≤ ht_smux_layout.HT_SMUX_CH1_CONFIG_REG ∧
        ht_smux_layout.HT_SMUX_CH1_CONFIG_REG < ht_smux_layout.HT_SMUX_COMMAND_REG + 32) ∧
      (ht_smux_layout.HT_SMUX_COMMAND_REG ≤ ht_smux_layout.HT_SMUX_CH2_CONFIG_REG ∧
        ht_smux_layout.HT_SMUX_CH2_CONFIG_REG < ht_smux_layout.HT_SMUX_COMMAND_REG + 32) ∧
      (ht_smux_layout.HT_SMUX_COMMAND_REG ≤ ht_smux_layout.HT_SMUX_CH3_CONFIG_REG ∧
        ht_smux_layout.HT_SMUX_CH3_CONFIG_REG < ht_smux_layout.HT_SMUX_COMMAND_REG + 32) ∧
      (ht_smux_layout.HT_SMUX_COMMAND_REG ≤ ht_smux_layout.HT_SMUX_CH4_CONFIG_REG ∧
        ht_smux_layout.HT_SMUX_CH4_CONFIG_REG < ht_smux_layout.HT_SMUX_COMMAND_REG + 32) ∧
      ((flaky_file 0x20).i2c_smbus_read_i2c_block_data (fun a => if a = 0x40 then 7 else 0)
        ht_smux_layout.HT_SMUX_COMMAND_REG 32).1.1 < 0) ∧
    (∀ k, k < 32 →
      (ht_sensor_mux_poll_cb ht_smux_layout (flaky_file 0x20) (fun _ _ x => x)
        (fun a => if a = 0x40 then 7 else 0) polled_state
        (fun k => if k = 2 then 1 else 0)).1 k = (fun k => if k = 2 then 1 else 0 : Nat → Nat) k) :=
  ⟨⟨by decide, by decide, by decide, by decide, by decide⟩,
    (ht_sensor_mux_poll_cb_first_read_fails ht_smux_layout (flaky_file 0x20) (fun _ _ x => x)
      (fun a => if a = 0x40 then 7 else 0) polled_state (fun k => if k = 2 then 1 else 0)
      (by decide) (by decide) (by decide) (by decide) (by decide)).2.1⟩

/-! ## Servo controller probe -/

theorem servo_repr_length (i : Nat) (hi : i < 8) : (Nat.repr (i + 1)).toList.length = 1 := by
  interval_cases i <;> rfl

theorem servo_init_fields (size : Nat) (ms_name ms_port_name : List Char) (i : Nat)
    (hfit : ms_port_name.length + 4 < size) (hi : i < 8) :
    (servo_init size ms_name ms_port_name i).id = i ∧
    (servo_init size ms_name ms_port_name i).servo.port_name =
      ms_port_name ++ ":sv".toList ++ (Nat.repr (i + 1)).toList := by
  refine ⟨rfl, ?_⟩
  show snprintf size _ = _
  unfold snprintf
  apply List.take_of_length_le
  have h1 := servo_repr_length i hi
  have h2 : ":sv".toList.length = 3 := rfl
  simp only [List.length_append, h1, h2]
  omega

theorem servo_probe_loop_fails (size : Nat) (ms_name ms_port_name : List Char) (a : Nat)
    (e : Int) (he : e ≠ 0) :
    ∀ (k n i : Nat) (err0 : Int) (st : servo_state), k < n →
      (∀ j, j < k → st.servos.register_result (st.servos.register_calls + j) = 0) →
      st.servos.register_result (st.servos.register_calls + k) = e →
      (servo_probe_loop size ms_name ms_port_name a n i err0 st).1 = i + k ∧
      (servo_probe_loop size ms_name ms_port_name a n i err0 st).2.1 = e ∧
      (servo_probe_loop size ms_name ms_port_name a n i err0 st).2.2.servos.registered =
        st.servos.registered ++ (List.range' i k).map
          (fun j => ((a, j), servo_init size ms_name ms_port_name j)) ∧
      (servo_probe_loop size ms_name ms_port_name a n i err0 st).2.2.servos.unregistered =
        st.servos.unregistered ∧
      (servo_probe_loop size ms_name ms_port_name a n i err0 st).2.2.servos.register_calls =
        st.servos.register_calls + k + 1 ∧
      (servo_probe_loop size ms_name ms_port_name a n i err0 st).2.2.callback_data =
        st.callback_data ∧
      (servo_probe_loop size ms_name ms_port_name a n i err0 st).2.2.poll_ms = st.poll_ms := by
  intro k
  induction k with
  | zero =>
    intro n i err0 st hn _ hfail
    obtain ⟨m, rfl⟩ : ∃ m, n = m + 1 := ⟨n - 1, by omega⟩
    have hf : st.servos.register_result st.servos.register_calls = e := hfail
    simp [servo_probe_loop, register_servo_motor, hf, he]
  | succ k ih =>
    intro n i err0 st hn hprev hfail
    obtain ⟨m, rfl⟩ : ∃ m, n = m + 1 := ⟨n - 1, by omega⟩
    have h0 : st.servos.register_result st.servos.register_calls = 0 := hprev 0 (by omega)
    have hstep : servo_probe_loop size ms_name ms_port_name a (m + 1) i err0 st =
        servo_probe_loop size ms_name ms_port_name a m (i + 1) 0
          { st with
            heap := fun b =>
              if b = a then
                (st.heap a).map (fun (arr : List ms_8ch_servo_data) =>
                  arr.set i (servo_init size ms_name ms_port_name i))
              else st.heap b
            servos :=
              { st.servos with
                registered := st.servos.registered ++
                  [((a, i), servo_init size ms_name ms_port_name i)]
                register_calls := st.servos.register_calls + 1 } } := by
      simp [servo_probe_loop, register_servo_motor, h0]
    rw [hstep]
    have := ih m (i + 1) 0
      { st with
        heap := fun b =>
          if b = a then
            (st.heap a).map (fun (arr : List ms_8ch_servo_data) =>
              arr.set i (servo_init size ms_name ms_port_name i))
          else st.heap b
        servos :=
          { st.servos with
            registered := st.servos.registered ++
              [((a, i), servo_init size ms_name ms_port_name i)]
            register_calls := st.servos.register_calls + 1 } } (by omega)
      (by
        intro j hj
        have := hprev (j + 1) (by omega)
        simpa [Nat.add_assoc, Nat.add_comm 1 j] using this)
      (by simpa [Nat.add_assoc, Nat.add_comm 1 k] using hfail)
    obtain ⟨r1, r2, r3, r4, r5, r6, r7⟩ := this
    refine ⟨by rw [r1]; omega, r2, ?_, r4, by rw [r5]; simp; omega, r6, r7⟩
    rw [r3, List.range'_succ]
    simp

theorem servo_unregister_down_spec (a : Nat) :
    ∀ (m : Nat) (st : servo_state),
      (servo_unregister_down a m st).servos.unregistered =
        st.servos.unregistered ++ (List.range m).reverse.map (fun i => (a, i)) ∧
      (servo_unregister_down a m st).servos.registered =
        st.servos.registered.filter (fun q => !(q.1.1 == a && decide (q.1.2 < m))) ∧
      (servo_unregister_down a m st).servos.register_calls = st.servos.register_calls ∧
      (servo_unregister_down a m st).callback_data = st.callback_data ∧
      (servo_unregister_down a m st).poll_ms = st.poll_ms := by
  intro m
  induction m with
  | zero => intro st; simp [servo_unregister_down]
  | succ m ih =>
    intro st
    unfold servo_unregister_down
    obtain ⟨r1, r2, r3, r4, r5⟩ := ih
      { st with servos := unregister_servo_motor st.servos (a, m) }
    refine ⟨?_, ?_, r3, r4, r5⟩
    · rw [r1]
      simp [unregister_servo_motor, List.range_succ]
    · rw [r2]
      simp only [unregister_servo_motor, List.filter_filter]
      apply List.filter_congr
      intro q _
      obtain ⟨⟨q1, q2⟩, d⟩ := q
      rw [Bool.eq_iff_iff]
      simp only [Bool.and_eq_true, Bool.not_eq_true', bne_iff_ne, ne_eq, Prod.mk.injEq,
        Bool.and_eq_false_imp, beq_iff_eq, decide_eq_false_iff_not, decide_eq_true_eq]
      constructor
      · rintro ⟨h1, h2⟩ h3
        have := h1 h3
        omega
      · intro h1
        constructor
        · intro h2
          have := h1 h2
          omega
        · rintro ⟨h2, h3⟩
          have := h1 h2
          omega

/-- C16: `ms_8ch_servo_probe_cb` on a servo class that knows no servo at the fresh
array address. If the eight registrations succeed, exactly the servos
`servos[0]`, ..., `servos[7]` are added to the registered ones, with ids 0..7
and port names `<sensor port>:sv1` .. `:sv8` (which fit the name size), nothing
is unregistered, the callback state points to the array holding them and the
polling interval is 1000. If the registration of servo `k` is the first not to
succeed and returns a negative error, servos `k-1`, ..., 0 are each
unregistered once (and nothing else is), no further registration is attempted,
the registered servos are those from before the call, and the callback state
and the polling interval are unchanged. -/
theorem ms_8ch_servo_probe_all_or_nothing (size : Nat) (ms_name ms_port_name : List Char)
    (st : servo_state)
    (hfit : ms_port_name.length + 4 < size)
    (hwf : ∀ q ∈ st.servos.registered, q.1.1 < st.brk) :
    ((∀ j, j < 8 → st.servos.register_result (st.servos.register_calls + j) = 0) →
      (ms_8ch_servo_probe_cb size ms_name ms_port_name st).servos.registered =
        st.servos.registered ++ (List.range 8).map
          (fun i => ((st.brk, i), servo_init size ms_name ms_port_name i)) ∧
      (∀ i, i < 8 →
        (servo_init size ms_name ms_port_name i).id = i ∧
        (servo_init size ms_name ms_port_name i).servo.port_name =
          ms_port_name ++ ":sv".toList ++ (Nat.repr (i + 1)).toList) ∧
      (ms_8ch_servo_probe_cb size ms_name ms_port_name st).servos.unregistered =
        st.servos.unregistered ∧
      (ms_8ch_servo_probe_cb size ms_name ms_port_name st).callback_data = some st.brk ∧
      (ms_8ch_servo_probe_cb size ms_name ms_port_name st).heap st.brk =
        some ((List.range 8).map (fun i => servo_init size ms_name ms_port_name i)) ∧
      (ms_8ch_servo_probe_cb size ms_name ms_port_name st).poll_ms = 1000) ∧
    (∀ k e, k < 8 →
      (∀ j, j < k → st.servos.register_result (st.servos.register_calls + j) = 0) →
      st.servos.register_result (st.servos.register_calls + k) = e → e < 0 →
      (ms_8ch_servo_probe_cb size ms_name ms_port_name st).servos.registered =
        st.servos.registered ∧
      (ms_8ch_servo_probe_cb size ms_name ms_port_name st).servos.unregistered =
        st.servos.unregistered ++ (List.range k).reverse.map (fun i => (st.brk, i)) ∧
      (ms_8ch_servo_probe_cb size ms_name ms_port_name st).servos.register_calls =
        st.servos.register_calls + k + 1 ∧
      (ms_8ch_servo_probe_cb size ms_name ms_port_name st).callback_data = st.callback_data ∧
      (ms_8ch_servo_probe_cb size ms_name ms_port_name st).poll_ms = st.poll_ms) := by
  have hold : ∀ q ∈ st.servos.registered, ∀ i, ¬ q.1 = (st.brk, i) := by
    intro q hq i heq
    have := hwf q hq
    rw [heq] at this
    simp at this
  refine ⟨?_, ?_⟩
  · intro hs
    have h0 : st.servos.register_result st.servos.register_calls = 0 := hs 0 (by omega)
    have h1 := hs 1 (by omega)
    have h2 := hs 2 (by omega)
    have h3 := hs 3 (by omega)
    have h4 := hs 4 (by omega)
    have h5 := hs 5 (by omega)
    have h6 := hs 6 (by omega)
    have h7 := hs 7 (by omega)
    refine ⟨?_, fun i hi => servo_init_fields size ms_name ms_port_name i hfit hi, ?_, ?_, ?_, ?_⟩ <;>
      simp [ms_8ch_servo_probe_cb, servo_probe_loop, register_servo_motor, h0, h1, h2, h3, h4,
        h5, h6, h7, List.range_succ]
  · intro k e hk hprev hfail he
    have hne : e ≠ 0 := by omega
    have hloop := servo_probe_loop_fails size ms_name ms_port_name st.brk e hne k 8 0 0
      { st with
        heap := fun b =>
          if b = st.brk then some (List.replicate 8 ⟨0, ⟨[], []⟩⟩) else st.heap b
        brk := st.brk + 1 } hk hprev hfail
    obtain ⟨hi, herr, hreg, hunreg, hcalls, hcd, hpoll⟩ := hloop
    have hdown := servo_unregister_down_spec st.brk
      (servo_probe_loop size ms_name ms_port_name st.brk 8 0 0
        { st with
          heap := fun b =>
            if b = st.brk then some (List.replicate 8 ⟨0, ⟨[], []⟩⟩) else st.heap b
          brk := st.brk + 1 }).1
      (servo_probe_loop size ms_name ms_port_name st.brk 8 0 0
        { st with
          heap := fun b =>
            if b = st.brk then some (List.replicate 8 ⟨0, ⟨[], []⟩⟩) else st.heap b
          brk := st.brk + 1 }).2.2
    obtain ⟨dunreg, dreg, dcalls, dcd, dpoll⟩ := hdown
    have hneg : (servo_probe_loop size ms_name ms_port_name st.brk 8 0 0
        { st with
          heap := fun b =>
            if b = st.brk then some (List.replicate 8 ⟨0, ⟨[], []⟩⟩) else st.heap b
          brk := st.brk + 1 }).2.1 < 0 := by rw [herr]; exact he
    simp only [ms_8ch_servo_probe_cb, if_pos hneg]
    refine ⟨?_, ?_, ?_, ?_, ?_⟩
    · rw [dreg, hreg, hi, List.filter_append]
      have e1 : List.filter (fun q => !(q.1.1 == st.brk && decide (q.1.2 < 0 + k)))
          st.servos.registered = st.servos.registered := by
        rw [List.filter_eq_self]
        intro q hq
        have := hwf q hq
        have hq1 : ¬ q.1.1 = st.brk := by omega
        simp [hq1]
      have e2 : List.filter (fun q => !(q.1.1 == st.brk && decide (q.1.2 < 0 + k)))
          (List.map (fun j => ((st.brk, j), servo_init size ms_name ms_port_name j))
            (List.range' 0 k)) = [] := by
        rw [List.filter_eq_nil_iff]
        intro q hq
        simp only [List.mem_map, List.mem_range'_1] at hq
        obtain ⟨j, ⟨_, hj⟩, rfl⟩ := hq
        simp
        omega
      rw [e1, e2, List.append_nil]
    · rw [dunreg, hunreg, hi]
      simp
    · rw [dcalls, hcalls]
    · rw [dcd, hcd]
    · rw [dpoll, hpoll]

theorem ms_8ch_servo_probe_all_or_nothing_witness :
    ("in1".toList.length + 4 < 32 ∧
      ∀ q ∈ (fresh_servo_state [2]).servos.registered, q.1.1 < (fresh_servo_state [2]).brk) ∧
    ((ms_8ch_servo_probe_cb 32 "ms-8ch-servo".toList "in1".toList
        (fresh_servo_state [2])).servos.registered = [] ∧
      (ms_8ch_servo_probe_cb 32 "ms-8ch-servo".toList "in1".toList
        (fresh_servo_state [2])).servos.unregistered = [(0, 1), (0, 0)] ∧
      (ms_8ch_servo_probe_cb 32 "ms-8ch-servo".toList "in1".toList
        (fresh_servo_state [2])).servos.register_calls = 3 ∧
      (ms_8ch_servo_probe_cb 32 "ms-8ch-servo".toList "in1".toList
        (fresh_servo_state [2])).callback_data = none ∧
      (ms_8ch_servo_probe_cb 32 "ms-8ch-servo".toList "in1".toList
        (fresh_servo_state [2])).poll_ms = 0) :=
  ⟨⟨by decide, fun _ hq => absurd hq (List.not_mem_nil _)⟩,
    (ms_8ch_servo_probe_all_or_nothing 32 "ms-8ch-servo".toList "in1".toList
      (fresh_servo_state [2]) (by decide)
      (fun _ hq => absurd hq (List.not_mem_nil _))).2 2 (-12) (by decide)
      (fun j hj => by interval_cases j <;> decide) (by decide) (by decide)⟩

/-! ## Sensor definitions table -/

/-- C18: the table has 17 sensor models; every model has at least one mode, and
for every mode index below its `num_modes`, with the documented defaults
applied (`raw_max` 255 and `data_sets` 1 when not supplied), `data_sets` is at
least 1 and `raw_max` differs from `raw_min`. -/
theorem nxt_i2c_sensor_defs_modes_valid :
    nxt_i2c_sensor_defs.length = 17 ∧
    ∀ s ∈ nxt_i2c_sensor_defs, 1 ≤ s.num_modes ∧
      ∀ i, i < s.num_modes →
        1 ≤ (s.mode i).data_sets_value ∧ (s.mode i).raw_max_value ≠ (s.mode i).raw_min_value := by
  decide

/-- In every entry of the table each mode index below `num_modes` has a name and
a read register, and in every entry other than `ht-super-pro` no mode index at
or above `num_modes` has either. -/
theorem nxt_i2c_sensor_defs_descriptors_below_num_modes :
    (∀ s ∈ nxt_i2c_sensor_defs, ∀ i, i < s.num_modes → s.has_descriptor i = true) ∧
    (∀ s ∈ nxt_i2c_sensor_defs, s.name ≠ "ht-super-pro" →
      s.ms_mode_info.length = s.num_modes ∧ s.i2c_mode_info.length = s.num_modes) := by
  decide

/-- C21 (failing input): the `[HT_NXT_SUPER_PRO_SENSOR]` entry of the table has
`num_modes` 5, and its mode indices 5, 6 and 7 are given a descriptor: the names
`HT-SPRO-LED`, `HT-SPRO-AO0`, `HT-SPRO-AO1` and the read registers `0x51`,
`0x52`, `0x57`. -/
theorem nxt_i2c_sensor_defs_super_pro_modes_beyond_num_modes :
    HT_NXT_SUPER_PRO_SENSOR ∈ nxt_i2c_sensor_defs ∧
    HT_NXT_SUPER_PRO_SENSOR.num_modes = 5 ∧
    HT_NXT_SUPER_PRO_SENSOR.has_descriptor 5 = true ∧
    HT_NXT_SUPER_PRO_SENSOR.has_descriptor 6 = true ∧
    HT_NXT_SUPER_PRO_SENSOR.has_descriptor 7 = true ∧
    (HT_NXT_SUPER_PRO_SENSOR.mode 5).name = some "HT-SPRO-LED" ∧
    (HT_NXT_SUPER_PRO_SENSOR.mode 6).name = some "HT-SPRO-AO0" ∧
    (HT_NXT_SUPER_PRO_SENSOR.mode 7).name = some "HT-SPRO-AO1" ∧
    (HT_NXT_SUPER_PRO_SENSOR.i2c_mode 5).read_data_reg = some 0x51 ∧
    (HT_NXT_SUPER_PRO_SENSOR.i2c_mode 6).read_data_reg = some 0x52 ∧
    (HT_NXT_SUPER_PRO_SENSOR.i2c_mode 7).read_data_reg = some 0x57 := by
  decide

/-- C22 as stated fails: mode 0 (`HT-BAR-PRES`) of the `ht-nxt-barometric` entry
names no data type, so it has the default `MSENSOR_DATA_U8` with range 0..255,
and its `raw_min` is 30400 and its `raw_max` 29400. -/
theorem nxt_i2c_sensor_defs_barometric_raw_range_exceeds_u8 :
    HT_NXT_BAROMETRIC_SENSOR ∈ nxt_i2c_sensor_defs ∧
    0 < HT_NXT_BAROMETRIC_SENSOR.num_modes ∧
    (HT_NXT_BAROMETRIC_SENSOR.mode 0).data_type = none ∧
    (HT_NXT_BAROMETRIC_SENSOR.mode 0).data_type_value = msensor_data_type.MSENSOR_DATA_U8 ∧
    (HT_NXT_BAROMETRIC_SENSOR.mode 0).raw_min_value = 30400 ∧
    (HT_NXT_BAROMETRIC_SENSOR.mode 0).raw_max_value = 29400 ∧
    (HT_NXT_BAROMETRIC_SENSOR.mode 0).representable
      (HT_NXT_BAROMETRIC_SENSOR.mode 0).raw_min_value = false ∧
    (HT_NXT_BAROMETRIC_SENSOR.mode 0).representable
      (HT_NXT_BAROMETRIC_SENSOR.mode 0).raw_max_value = false := by
  decide

/-- C22 as amended: for every entry of the table and every mode index below its
`num_modes`, with the documented defaults applied, `raw_min` and `raw_max` are
representable in the data type of the mode, unless the mode is one of
`I2C-S8`, `HT-IRRECV`, `HT-IRRECV-8`, `HT-BAR-PRES`, `HT-BAR-TEMP`,
`HT-CMP-DEG2`, `MS-LSA-RAW`. The first three declare `MSENSOR_DATA_S8`, name no
`raw_max` and so have the default 255, with `raw_min` 0 representable. -/
theorem nxt_i2c_sensor_defs_raw_range_in_data_type :
    ∀ s ∈ nxt_i2c_sensor_defs, ∀ i, i < s.num_modes →
      ((s.mode i).name ∉ [some "I2C-S8", some "HT-IRRECV", some "HT-IRRECV-8",
          some "HT-BAR-PRES", some "HT-BAR-TEMP", some "HT-CMP-DEG2", some "MS-LSA-RAW"] →
        (s.mode i).representable (s.mode i).raw_min_value = true ∧
        (s.mode i).representable (s.mode i).raw_max_value = true) ∧
      ((s.mode i).name ∈ [some "I2C-S8", some "HT-IRRECV", some "HT-IRRECV-8"] →
        (s.mode i).data_type = some msensor_data_type.MSENSOR_DATA_S8 ∧
        (s.mode i).raw_max = none ∧
        (s.mode i).raw_max_value = 255 ∧
        (s.mode i).representable (s.mode i).raw_min_value = true) := by
  decide

theorem nxt_i2c_sensor_defs_raw_range_in_data_type_witness :
    (MS_8CH_SERVO ∈ nxt_i2c_sensor_defs ∧ 0 < MS_8CH_SERVO.num_modes) ∧
    ((MS_8CH_SERVO.mode 0).representable (MS_8CH_SERVO.mode 0).raw_min_value = true ∧
      (MS_8CH_SERVO.mode 0).representable (MS_8CH_SERVO.mode 0).raw_max_value = true) :=
  ⟨⟨by decide, by decide⟩,
    (nxt_i2c_sensor_defs_raw_range_in_data_type MS_8CH_SERVO (by decide) 0 (by decide)).1
      (by decide)⟩

/-! ## Servo rate quantisation: fixed points and bounds -/

theorem div_div_div_self (n x : Nat) (hx : 0 < x) (hd : 0 < n / x) :
    n / (n / (n / x)) = n / x ∧ x ≤ n / (n / x) := by
  have hxy : x ≤ n / (n / x) := (Nat.le_div_iff_mul_le hd).mpr (Nat.mul_div_le n x)
  have hy : 0 < n / (n / x) := Nat.lt_of_lt_of_le hx hxy
  refine ⟨Nat.le_antisymm (Nat.div_le_div_left hxy hx) ?_, hxy⟩
  exact (Nat.le_div_iff_mul_le hy).mpr (Nat.mul_div_le n (n / x))

theorem get_rate_latch (d id : Nat) (hd : d < 65536) :
    (ms_8ch_servo_get_rate latch d id).1 =
      some (if d = 0 then 0 else ((24000 / d : Nat) : Int)) := by
  unfold ms_8ch_servo_get_rate
  have hmod : d % 65536 = d := Nat.mod_eq_of_lt hd
  simp only [latch, hmod]
  have hnn : ¬ ((d : Int) < 0) := by omega
  by_cases h0 : d = 0
  · subst h0
    simp
  · have hz : ¬ ((d : Int) = 0) := by omega
    have hne : ¬ ((24000 : Int) = -(2 ^ 31) ∧ (d : Int) = -1) := by
      intro h; omega
    have hdiv : Int.tdiv 24000 (d : Int) = ((24000 / d : Nat) : Int) := by
      rw [Int.tdiv_eq_ediv (by decide) (by omega)]
      norm_cast
    simp only [if_neg hnn, if_neg hz, if_neg h0, c_sdiv, hne, if_false, hdiv]

theorem set_rate_traced_log {σ : Type} (client : i2c_client σ) (s : σ) (id x : Nat) :
    (ms_8ch_servo_set_rate (traced client) (s, []) id x).map (fun r => r.2.2) =
      some [bus_transfer.write_word_data (to_u8 (0x52 + (id : Int) * 2))
        (if 24000 ≤ x then 1 else if x < 94 then 0 else 24000 / x)] := by
  unfold ms_8ch_servo_set_rate
  rw [set_rate_scaled_eq]
  by_cases h1 : 24000 ≤ x
  · simp [h1, traced, to_u16]
  · by_cases h2 : x < 94
    · simp [h1, h2, traced, to_u16]
    · have hq : 24000 / x < 65536 := by
        have := set_rate_quotient_le x (by omega)
        omega
      simp only [if_neg h1, if_neg h2, to_u16_of_small _ hq, traced, List.nil_append,
        Option.map_some']

/-- C23: rate quantisation is a projection. With `d` the divisor
`ms_8ch_servo_set_rate` stores for the rate `x` and `rate` the value
`ms_8ch_servo_get_rate` computes when it reads `d` back, storing `rate` again
stores the same divisor `d`, for every `x`; and for every `x` with
`94 ≤ x ≤ 24000` the rate read back is at least `x`. -/
theorem ms_8ch_servo_rate_quantisation_projection (w w2 id id2 id3 x : Nat) :
    ∃ d rate,
      (ms_8ch_servo_set_rate latch w id x).map Prod.snd = some d ∧
      (ms_8ch_servo_get_rate latch d id2).1 = some rate ∧
      0 ≤ rate ∧
      (ms_8ch_servo_set_rate latch w2 id3 rate.toNat).map Prod.snd = some d ∧
      (94 ≤ x → x ≤ 24000 → (x : Int) ≤ rate) := by
  by_cases h1 : 24000 ≤ x
  · refine ⟨1, 24000, ?_, ?_, by decide, ?_, ?_⟩
    · rw [set_rate_latch, if_pos h1]
    · rw [get_rate_latch 1 id2 (by decide)]
      decide
    · rw [set_rate_latch]
      decide
    · intro _ hx
      have : x = 24000 := by omega
      subst this
      decide
  · by_cases h2 : x < 94
    · refine ⟨0, 0, ?_, ?_, by decide, ?_, ?_⟩
      · rw [set_rate_latch, if_neg h1, if_pos h2]
      · rw [get_rate_latch 0 id2 (by decide)]
        decide
      · rw [set_rate_latch]
        decide
      · intro hx _
        omega
    · have hx0 : 0 < x := by omega
      have hle : 24000 / x ≤ 255 := set_rate_quotient_le x (by omega)
      have hpos : 0 < 24000 / x := Nat.div_pos (by omega) hx0
      obtain ⟨hidem, hxy⟩ := div_div_div_self 24000 x hx0 hpos
      have hdne : ¬ (24000 / x = 0) := by omega
      refine ⟨24000 / x, ((24000 / (24000 / x) : Nat) : Int), ?_, ?_, by omega, ?_, ?_⟩
      · rw [set_rate_latch, if_neg h1, if_neg h2]
      · rw [get_rate_latch (24000 / x) id2 (by omega), if_neg hdne]
      · rw [Int.toNat_ofNat, set_rate_latch]
        have hy94 : ¬ (24000 / (24000 / x) < 94) := by omega
        by_cases hbig : 24000 ≤ 24000 / (24000 / x)
        · rw [if_pos hbig]
          have h24 : 24000 / (24000 / x) ≤ 24000 := Nat.div_le_self _ _
          have heq : 24000 / (24000 / x) = 24000 := by omega
          rw [heq] at hidem
          rw [← hidem]
        · rw [if_neg hbig, if_neg hy94, hidem]
      · intro _ _
        exact_mod_cast hxy

/-- C24: for every requested rate `x`, `ms_8ch_servo_set_rate` issues one word
write whose value, the divisor, is at most 255 and is 0 exactly when `x < 94`;
the quotient `24000 / 94` is 255, `24000 / 93` is 258, and every rate below 94
for which the quotient is defined has a quotient above 255. -/
theorem ms_8ch_servo_set_rate_divisor_fits_byte {σ : Type} (client : i2c_client σ) (s : σ)
    (id x : Nat) :
    (∃ command d,
      (ms_8ch_servo_set_rate (traced client) (s, []) id x).map (fun r => r.2.2) =
        some [bus_transfer.write_word_data command d] ∧
      d ≤ 255 ∧ (d = 0 ↔ x < 94)) ∧
    c_udiv 24000 94 = some 255 ∧
    c_udiv 24000 93 = some 258 ∧
    (∀ y q, y < 94 → c_udiv 24000 y = some q → 255 < q) := by
  refine ⟨⟨_, _, set_rate_traced_log client s id x, ?_, ?_⟩, by decide, by decide, ?_⟩
  · by_cases h1 : 24000 ≤ x
    · simp [h1]
    · by_cases h2 : x < 94
      · simp [h1, h2]
      · simp only [if_neg h1, if_neg h2]
        exact set_rate_quotient_le x (by omega)
  · by_cases h1 : 24000 ≤ x
    · simp only [if_pos h1]
      constructor
      · intro h; exact absurd h (by decide)
      · intro h; omega
    · by_cases h2 : x < 94
      · simp [h1, h2]
      · simp only [if_neg h1, if_neg h2]
        have hpos : 0 < 24000 / x := Nat.div_pos (by omega) (by omega)
        constructor
        · intro h; omega
        · intro h; exact absurd h h2
  · intro y q hy hq
    unfold c_udiv at hq
    by_cases h0 : y = 0
    · simp [h0] at hq
    · simp only [if_neg h0, Option.some.injEq] at hq
      have h93 : 24000 / 93 ≤ 24000 / y := Nat.div_le_div_left (by omega) (by omega)
      have : 24000 / 93 = 258 := by decide
      omega

end NxtI2cSensorDefs
